import Mathlib

/-!
Shallow embedding of `src/orchestrator.py` (task orchestration engine).

Modelling conventions:
* Python `time.time()` samples are drawn from an explicit list of rational
  timestamps threaded through the state (`St.times`); each call to
  `time.time()` pops the head (0 if exhausted).  Timestamps and durations
  are rationals, so float rounding of the clock itself is not modelled.
* Python values (`Any`) are the inductive `Val`; Python `None` is
  `Val.none`.  A `Task` field `result: Optional[Any] = None` is therefore
  `result : Val` with default `Val.none` ("populated" = `≠ Val.none`),
  matching Python where assigning `None` is indistinguishable from the
  default.  `error: Optional[str]` is `Option String`.
* Agent objects are read-only maps from method names to methods
  (`getattr`); a method maps its keyword arguments and the 0-based attempt
  index of the enclosing retry loop to a result or a raised exception
  message (`Except String Val`).
* Exceptions are the inductive `Err`, one constructor per raise site of
  the source; `Err.toMsg` is the Python `str(e)`.  Dynamic-typing errors
  raised by `.get(...)` on a non-dict and `[:10]` on a non-list are folded
  into `Err.pyError`.
* `asyncio.gather` in the fan-out stage is serialised left-to-right
  (one admissible schedule); `await asyncio.sleep` is recorded as a
  `AEvent.sleep` trace event.  Every agent call, sleep and breaker update
  is logged in an event trace returned alongside the result.
* `Orchestrator.self.tasks` is initialised but never written or read by
  any code path in the file and is omitted.
-/

/-- Task types, `class TaskType(Enum)`. -/
inductive TaskType where
  | repo_ingest
  | user_query
  | pr_webhook
  | generate_docs
  | voice_command
  deriving DecidableEq, Repr

/-- Task statuses, `class TaskStatus(Enum)`. -/
inductive TaskStatus where
  | pending
  | running
  | completed
  | failed
  | timeout
  deriving DecidableEq, Repr

/-- The `Task` dataclass, parameterised by the value type to allow the
nested occurrence of tasks inside `Val` (a voice-command task's result is
the derived `Task` object). -/
structure TaskG (V : Type) where
  task_id : String
  task_type : TaskType
  payload : List (String × V)
  status : TaskStatus
  created_at : ℚ
  started_at : Option ℚ
  completed_at : Option ℚ
  result : V
  error : Option String
  retry_count : Nat

/-- Python runtime values (`Any`).  `Val.none` is Python `None`. -/
inductive Val where
  | none
  | str (s : String)
  | num (q : ℚ)
  | bool (b : Bool)
  | listV (vs : List Val)
  | dict (entries : List (String × Val))
  | taskV (t : TaskG Val)

/-- A task whose values are Python values. -/
abbrev TaskObj := TaskG Val

/-- Keyword arguments / payloads / string-keyed dicts. -/
abbrev Payload := List (String × Val)

/-- Python dict lookup (`d[k]` / `k in d`): first binding of the key. -/
def dget {α : Type} : List (String × α) → String → Option α
  | [], _ => Option.none
  | (k, v) :: rest, key => if k = key then some v else dget rest key

/-- Python dict assignment `d[k] = v`: replace the first binding in place,
or append. -/
def dset {α : Type} : List (String × α) → String → α → List (String × α)
  | [], key, val => [(key, val)]
  | (k, v) :: rest, key, val =>
      if k = key then (key, val) :: rest else (k, v) :: dset rest key val

/-- Python `del d[k]`: drop the first binding of the key. -/
def ddel {α : Type} : List (String × α) → String → List (String × α)
  | [], _ => []
  | (k, v) :: rest, key => if k = key then rest else (k, v) :: ddel rest key

/-- Python `d.get(k)` on a payload: `None` when the key is absent. -/
def pget (p : Payload) (k : String) : Val :=
  (dget p k).getD Val.none

/-- Python `d.get(k, default)` on a payload. -/
def pgetD (p : Payload) (k : String) (dflt : Val) : Val :=
  (dget p k).getD dflt

/-- Python truthiness of a value. -/
def Val.truthy : Val → Bool
  | Val.none => false
  | Val.str s => !(s = "")
  | Val.num q => !(q = 0)
  | Val.bool b => b
  | Val.listV vs => !vs.isEmpty
  | Val.dict es => !es.isEmpty
  | Val.taskV _ => true

/-- Exceptions, one constructor per raise site of the source. -/
inductive Err where
  | circuitOpen (agent_name : String)
  | agentNotFound (agent_name : String)
  | methodNotFound (agent_name method_name : String)
  | qaNotRegistered
  | changeNotRegistered
  | summarizerNotRegistered
  | agentError (msg : String)
  | transcribeError (msg : String)
  | pyError (msg : String)
  deriving DecidableEq, Repr

/-- Python `str(e)` for each raise site. -/
def Err.toMsg : Err → String
  | Err.circuitOpen a => "Circuit breaker open for " ++ a
  | Err.agentNotFound a => "Agent not found: " ++ a
  | Err.methodNotFound a m => "Method not found: " ++ a ++ "." ++ m
  | Err.qaNotRegistered => "QA agent not registered"
  | Err.changeNotRegistered => "Change agent not registered"
  | Err.summarizerNotRegistered => "Summarizer agent not registered"
  | Err.agentError m => m
  | Err.transcribeError m => m
  | Err.pyError m => m

/-- Python `v.get(key, dflt)`: attribute error unless `v` is a dict. -/
def Val.pyGet (v : Val) (key : String) (dflt : Val) : Except Err Val :=
  match v with
  | Val.dict es => Except.ok (pgetD es key dflt)
  | _ => Except.error (Err.pyError "AttributeError")

/-- Python `v[:10]` followed by iteration — `files[:10]` in the fan-out
stage; only list values are modelled, anything else raises. -/
def Val.pySliceTen : Val → Except Err (List Val)
  | Val.listV vs => Except.ok (vs.take 10)
  | _ => Except.error (Err.pyError "TypeError")

/-- Python substring test `needle in hay`. -/
def containsSub (hay needle : String) : Bool :=
  1 < (hay.splitOn needle).length

/-- Python `int(q)`: truncation towards zero. -/
def pyInt (q : ℚ) : ℤ :=
  if 0 ≤ q then ⌊q⌋ else ⌈q⌉

/-- Round-half-to-even to an integer (Python `round` on an exact value). -/
def roundHalfEven (q : ℚ) : ℤ :=
  if q - ⌊q⌋ < 1/2 then ⌊q⌋
  else if 1/2 < q - ⌊q⌋ then ⌊q⌋ + 1
  else if ⌊q⌋ % 2 = 0 then ⌊q⌋ else ⌊q⌋ + 1

/-- Python `round(q, 2)` on an exact rational value. -/
def round2 (q : ℚ) : ℚ :=
  (roundHalfEven (q * 100) : ℚ) / 100

/-- The `CircuitBreaker` class state. -/
structure CircuitBreaker where
  threshold : Nat
  timeout : ℚ
  failures : List (String × List ℚ)
  open_until : List (String × ℚ)

/-- `CircuitBreaker.is_open`; `now` is the single `time.time()` sample
the method takes (only taken when the agent has an open_until entry). -/
def CircuitBreaker.is_open (cb : CircuitBreaker) (agent_name : String) (now : ℚ) :
    Bool × CircuitBreaker :=
  match dget cb.open_until agent_name with
  | some u =>
      if now < u then (true, cb)
      else
        (false, { cb with open_until := ddel cb.open_until agent_name,
                          failures := dset cb.failures agent_name [] })
  | Option.none => (false, cb)

/-- `CircuitBreaker.record_failure`; `now` is the method's single
`time.time()` sample: append, prune the rolling 60s window, open the
circuit when the pruned list reaches the threshold. -/
def CircuitBreaker.record_failure (cb : CircuitBreaker) (agent_name : String) (now : ℚ) :
    CircuitBreaker :=
  let pruned := (((dget cb.failures agent_name).getD []) ++ [now]).filter
    (fun t => now - t < 60)
  let cb1 := { cb with failures := dset cb.failures agent_name pruned }
  if cb1.threshold ≤ pruned.length then
    { cb1 with open_until := dset cb1.open_until agent_name (now + cb1.timeout) }
  else cb1

/-- `CircuitBreaker.record_success`: clear the failure list if present. -/
def CircuitBreaker.record_success (cb : CircuitBreaker) (agent_name : String) :
    CircuitBreaker :=
  match dget cb.failures agent_name with
  | some _ => { cb with failures := dset cb.failures agent_name [] }
  | Option.none => cb

/-- The orchestrator metrics counters. -/
structure Metrics where
  total_tasks : Nat
  successful_tasks : Nat
  failed_tasks : Nat
  total_latency_ms : ℤ
  deriving DecidableEq, Repr

/-- Recognised configuration (`config.py` defaults). -/
structure Settings where
  qa_response_timeout_ms : ℤ := 500
  circuit_breaker_threshold : Nat := 5
  circuit_breaker_timeout : ℚ := 60
  retry_backoff_base : ℚ := 1
  retry_max_attempts : Nat := 3

/-- An agent object: `getattr(agent, method_name, None)`.  A method maps
its keyword arguments and the attempt index to a result or a raised
exception message. -/
abbrev AgentMethod := Payload → Nat → Except String Val

/-- Agent objects are read-only after registration. -/
abbrev AgentObj := String → Option AgentMethod

/-- Read-only environment: settings, the agent registry after
registration, and the groq transcription client. -/
structure Env where
  settings : Settings
  agents : List (String × AgentObj)
  transcribe : Val → Except String String

/-- Mutable orchestrator state: breaker, metrics and the pending
`time.time()` samples. -/
structure St where
  cb : CircuitBreaker
  metrics : Metrics
  times : List ℚ

/-- One `time.time()` call. -/
def tick (st : St) : ℚ × St :=
  match st.times with
  | [] => (0, st)
  | t :: rest => (t, { st with times := rest })

/-- `self.circuit_breaker.is_open(agent_name)` as a state action:
`time.time()` is sampled exactly when the agent has an open_until entry. -/
def stIsOpen (st : St) (agent_name : String) : Bool × St :=
  match dget st.cb.open_until agent_name with
  | some _ =>
      let (now, st1) := tick st
      let (b, cb1) := st1.cb.is_open agent_name now
      (b, { st1 with cb := cb1 })
  | Option.none => (false, st)

/-- Observable events of an execution. -/
inductive AEvent where
  | invoke (agent_name method_name : String) (attempt : Nat)
  | sleep (seconds : ℚ)
  | recFailure (agent_name : String)
  | recSuccess (agent_name : String)
  deriving DecidableEq, Repr

/-- The retry loop of `Orchestrator._execute_agent`
(`for attempt in range(settings.retry_max_attempts)`), structurally
recursive on the remaining iterations; entered with
`attempt = 0`, `remaining = retry_max_attempts`.  When the range is
exhausted without a `return` or `raise` (only possible when
`retry_max_attempts = 0`) the Python function returns `None`. -/
def retryLoop (env : Env) (agent_name method_name : String) (method : AgentMethod)
    (kwargs : Payload) : St → Nat → Nat → Except Err Val × St × List AEvent
  | st, _, 0 => (Except.ok Val.none, st, [])
  | st, attempt, rem + 1 =>
      match method kwargs attempt with
      | Except.ok v =>
          (Except.ok v, { st with cb := st.cb.record_success agent_name },
           [AEvent.invoke agent_name method_name attempt, AEvent.recSuccess agent_name])
      | Except.error e =>
          if attempt < env.settings.retry_max_attempts - 1 then
            let wait_time := env.settings.retry_backoff_base * 2 ^ attempt
            let (res, st1, tr) :=
              retryLoop env agent_name method_name method kwargs st (attempt + 1) rem
            (res, st1,
             AEvent.invoke agent_name method_name attempt :: AEvent.sleep wait_time :: tr)
          else
            let (now, st1) := tick st
            (Except.error (Err.agentError e),
             { st1 with cb := st1.cb.record_failure agent_name now },
             [AEvent.invoke agent_name method_name attempt, AEvent.recFailure agent_name])

/-- `Orchestrator._execute_agent`: breaker check, registry and method
lookup, then the retry loop. -/
def execute_agent (env : Env) (st : St) (agent_name method_name : String)
    (kwargs : Payload) : Except Err Val × St × List AEvent :=
  let (isOpen, st1) := stIsOpen st agent_name
  if isOpen then (Except.error (Err.circuitOpen agent_name), st1, [])
  else
    match dget env.agents agent_name with
    | Option.none => (Except.error (Err.agentNotFound agent_name), st1, [])
    | some agent =>
        match agent method_name with
        | Option.none =>
            (Except.error (Err.methodNotFound agent_name method_name), st1, [])
        | some method =>
            retryLoop env agent_name method_name method kwargs st1 0
              env.settings.retry_max_attempts

/-- The fan-out of `_handle_repo_ingest` step 2:
`asyncio.gather(*parse_tasks, return_exceptions=True)` — one
`_execute_agent("parser", "parse_file", file_path=f)` call per file,
individual failures collected, serialised left-to-right. -/
def fanOutParse (env : Env) : St → List Val → List (Except Err Val) × St × List AEvent
  | st, [] => ([], st, [])
  | st, f :: fs =>
      let (r, st1, tr1) := execute_agent env st "parser" "parse_file" [("file_path", f)]
      let (rs, st2, tr2) := fanOutParse env st1 fs
      (r :: rs, st2, tr1 ++ tr2)

/-- Count of fan-out results that are not exceptions. -/
def countOk (rs : List (Except Err Val)) : Nat :=
  (rs.filter (fun r => match r with | Except.ok _ => true | _ => false)).length

/-- Count of fan-out results that are exceptions. -/
def countErr (rs : List (Except Err Val)) : Nat :=
  (rs.filter (fun r => match r with | Except.error _ => true | _ => false)).length

/-- Step 1 of `_handle_repo_ingest`: the sequential intake call, run only
when the "intake" agent is registered. -/
def repoStep1 (env : Env) (st : St) (repo_url branch : Val) (results : Payload) :
    Except Err Payload × St × List AEvent :=
  if (dget env.agents "intake").isSome then
    match execute_agent env st "intake" "fetch_repo"
        [("repo_url", repo_url), ("branch", branch)] with
    | (Except.ok v, st1, tr) => (Except.ok (dset results "intake" v), st1, tr)
    | (Except.error e, st1, tr) => (Except.error e, st1, tr)
  else (Except.ok results, st, [])

/-- Step 2 of `_handle_repo_ingest`: the parser fan-out, run only when the
"parser" agent is registered and `results.get("intake")` is truthy; the
file list is `results["intake"].get("files", [])[:10]`. -/
def repoStep2 (env : Env) (st : St) (results : Payload) :
    Except Err Payload × St × List AEvent :=
  if (dget env.agents "parser").isSome && (pget results "intake").truthy then
    match (pget results "intake").pyGet "files" (Val.listV []) with
    | Except.error e => (Except.error e, st, [])
    | Except.ok vfiles =>
        match vfiles.pySliceTen with
        | Except.error e => (Except.error e, st, [])
        | Except.ok files =>
            let (parse_results, st1, tr) := fanOutParse env st files
            (Except.ok (dset results "parser" (Val.dict
               [("parsed_files", Val.num (countOk parse_results)),
                ("errors", Val.num (countErr parse_results))])), st1, tr)
  else (Except.ok results, st, [])

/-- Step 3 of `_handle_repo_ingest`: the sequential chunker/indexer call,
run only when the "chunker_indexer" agent is registered. -/
def repoStep3 (env : Env) (st : St) (results : Payload) :
    Except Err Payload × St × List AEvent :=
  if (dget env.agents "chunker_indexer").isSome then
    match execute_agent env st "chunker_indexer" "index_chunks"
        [("parsed_data", pget results "parser")] with
    | (Except.ok v, st1, tr) => (Except.ok (dset results "indexer" v), st1, tr)
    | (Except.error e, st1, tr) => (Except.error e, st1, tr)
  else (Except.ok results, st, [])

/-- Step 4 of `_handle_repo_ingest`: the sequential summarizer call, run
only when the "summarizer" agent is registered. -/
def repoStep4 (env : Env) (st : St) (repo_url : Val) (results : Payload) :
    Except Err Payload × St × List AEvent :=
  if (dget env.agents "summarizer").isSome then
    match execute_agent env st "summarizer" "generate_overview"
        [("repo_url", repo_url)] with
    | (Except.ok v, st1, tr) => (Except.ok (dset results "summarizer" v), st1, tr)
    | (Except.error e, st1, tr) => (Except.error e, st1, tr)
  else (Except.ok results, st, [])

/-- `Orchestrator._handle_repo_ingest`: the four ordered stages; any
exception of a sequential stage aborts the handler. -/
def handle_repo_ingest (env : Env) (st : St) (t : TaskObj) :
    Except Err Val × St × List AEvent :=
  let repo_url := pget t.payload "repo_url"
  let branch := pgetD t.payload "branch" (Val.str "main")
  match repoStep1 env st repo_url branch [] with
  | (Except.error e, st1, tr1) => (Except.error e, st1, tr1)
  | (Except.ok results1, st1, tr1) =>
      match repoStep2 env st1 results1 with
      | (Except.error e, st2, tr2) => (Except.error e, st2, tr1 ++ tr2)
      | (Except.ok results2, st2, tr2) =>
          match repoStep3 env st2 results2 with
          | (Except.error e, st3, tr3) => (Except.error e, st3, tr1 ++ tr2 ++ tr3)
          | (Except.ok results3, st3, tr3) =>
              match repoStep4 env st3 repo_url results3 with
              | (Except.error e, st4, tr4) =>
                  (Except.error e, st4, tr1 ++ tr2 ++ tr3 ++ tr4)
              | (Except.ok results4, st4, tr4) =>
                  (Except.ok (Val.dict
                     [("status", Val.str "completed"),
                      ("repo_url", repo_url),
                      ("branch", branch),
                      ("results", Val.dict results4)]),
                   st4, tr1 ++ tr2 ++ tr3 ++ tr4)

/-- `Orchestrator._handle_user_query`: requires "qa"; the surrounding
`time.time()` pair feeds only the SLA log, which has no other effect. -/
def handle_user_query (env : Env) (st : St) (t : TaskObj) :
    Except Err Val × St × List AEvent :=
  let query := pget t.payload "query"
  let repo_id := pget t.payload "repo_id"
  if (dget env.agents "qa").isNone then (Except.error Err.qaNotRegistered, st, [])
  else
    let (_start_time, st1) := tick st
    match execute_agent env st1 "qa" "answer_question"
        [("question", query), ("repo_id", repo_id)] with
    | (Except.error e, st2, tr) => (Except.error e, st2, tr)
    | (Except.ok v, st2, tr) =>
        let (_end_time, st3) := tick st2
        (Except.ok v, st3, tr)

/-- `Orchestrator._handle_pr_webhook`: requires "change"; the
auto_comment branch is `pass` and has no effect. -/
def handle_pr_webhook (env : Env) (st : St) (t : TaskObj) :
    Except Err Val × St × List AEvent :=
  if (dget env.agents "change").isNone then (Except.error Err.changeNotRegistered, st, [])
  else
    execute_agent env st "change" "analyze_pr"
      [("pr_number", pget t.payload "pr_number"),
       ("repo_url", pget t.payload "repo_url")]

/-- `Orchestrator._handle_generate_docs`: requires "summarizer". -/
def handle_generate_docs (env : Env) (st : St) (t : TaskObj) :
    Except Err Val × St × List AEvent :=
  let doc_type := pgetD t.payload "doc_type" (Val.str "onboarding")
  let repo_id := pget t.payload "repo_id"
  if (dget env.agents "summarizer").isNone then
    (Except.error Err.summarizerNotRegistered, st, [])
  else
    execute_agent env st "summarizer" "generate_docs"
      [("doc_type", doc_type), ("repo_id", repo_id)]

/-- The derived REPO_INGEST task built by `_handle_voice_command`; its
`created_at` default samples `time.time()`. -/
def voiceDerivedIngest (t : TaskObj) (created_at : ℚ) : TaskObj :=
  { task_id := t.task_id ++ "-ingest", task_type := TaskType.repo_ingest,
    payload := [("repo_url", Val.str "...")],
    status := TaskStatus.pending, created_at := created_at,
    started_at := Option.none, completed_at := Option.none,
    result := Val.none, error := Option.none, retry_count := 0 }

/-- The derived USER_QUERY task built by `_handle_voice_command`. -/
def voiceDerivedQuery (t : TaskObj) (transcription : String) (created_at : ℚ) : TaskObj :=
  { task_id := t.task_id ++ "-query", task_type := TaskType.user_query,
    payload := [("query", Val.str transcription)],
    status := TaskStatus.pending, created_at := created_at,
    started_at := Option.none, completed_at := Option.none,
    result := Val.none, error := Option.none, retry_count := 0 }

/-- Measure for the voice-command recursion: a derived task is never a
voice command, so the recursion depth is at most one. -/
def typeMeasure : TaskType → Nat
  | TaskType.voice_command => 1
  | _ => 0

/-- `Orchestrator.execute_task`: set RUNNING and `started_at`, route by
task type (`_handle_voice_command` is inlined: transcribe, classify by
keywords, recursively execute the derived task), then on success set the
result and COMPLETED, on an exception set the error and FAILED, and in
the `finally` block set `completed_at` and update the metrics. -/
def execute_task (env : Env) (st : St) (t : TaskObj) : TaskObj × St × List AEvent :=
  let (now0, st0) := tick st
  let t1 := { t with status := TaskStatus.running, started_at := some now0 }
  let handlerOut : Except Err Val × St × List AEvent :=
    match _ht : t.task_type with
    | TaskType.repo_ingest => handle_repo_ingest env st0 t1
    | TaskType.user_query => handle_user_query env st0 t1
    | TaskType.pr_webhook => handle_pr_webhook env st0 t1
    | TaskType.generate_docs => handle_generate_docs env st0 t1
    | TaskType.voice_command =>
        match env.transcribe (pget t1.payload "audio_path") with
        | Except.error m => (Except.error (Err.transcribeError m), st0, [])
        | Except.ok transcription =>
            if (["index", "ingest", "add"]).any
                (fun w => containsSub transcription.toLower w) then
              let (created_at, stA) := tick st0
              let (dt, stB, tr) := execute_task env stA (voiceDerivedIngest t1 created_at)
              (Except.ok (Val.taskV dt), stB, tr)
            else
              let (created_at, stA) := tick st0
              let (dt, stB, tr) :=
                execute_task env stA (voiceDerivedQuery t1 transcription created_at)
              (Except.ok (Val.taskV dt), stB, tr)
  let (res, st2, tr) := handlerOut
  let (t2, st3) :=
    match res with
    | Except.ok v =>
        ({ t1 with result := v, status := TaskStatus.completed },
         { st2 with metrics :=
            { st2.metrics with successful_tasks := st2.metrics.successful_tasks + 1 } })
    | Except.error e =>
        ({ t1 with error := some e.toMsg, status := TaskStatus.failed },
         { st2 with metrics :=
            { st2.metrics with failed_tasks := st2.metrics.failed_tasks + 1 } })
  let (now1, st4) := tick st3
  let latency_ms := pyInt ((now1 - now0) * 1000)
  let st5 := { st4 with metrics :=
    { st4.metrics with
        total_latency_ms := st4.metrics.total_latency_ms + latency_ms,
        total_tasks := st4.metrics.total_tasks + 1 } }
  ({ t2 with completed_at := some now1 }, st5, tr)
  termination_by typeMeasure t.task_type
  decreasing_by
  · simp_all [voiceDerivedIngest, typeMeasure]
  · simp_all [voiceDerivedQuery, typeMeasure]

/-- `Orchestrator.get_metrics` output snapshot. -/
structure MetricsOut where
  total_tasks : Nat
  successful_tasks : Nat
  failed_tasks : Nat
  total_latency_ms : ℤ
  avg_latency_ms : ℚ
  success_rate : ℚ
  deriving DecidableEq, Repr

/-- `Orchestrator.get_metrics`: the counters plus the derived
`avg_latency_ms` (rounded to 2 decimal places) and `success_rate`. -/
def get_metrics (m : Metrics) : MetricsOut :=
  let avg_latency : ℚ :=
    if 0 < m.total_tasks then (m.total_latency_ms : ℚ) / (m.total_tasks : ℚ) else 0
  { total_tasks := m.total_tasks,
    successful_tasks := m.successful_tasks,
    failed_tasks := m.failed_tasks,
    total_latency_ms := m.total_latency_ms,
    avg_latency_ms := round2 avg_latency,
    success_rate :=
      if 0 < m.total_tasks then (m.successful_tasks : ℚ) / (m.total_tasks : ℚ) else 0 }

/-- Executing a list of tasks in order, collecting the terminal tasks. -/
def runTasks (env : Env) : St → List TaskObj → List TaskObj × St
  | st, [] => ([], st)
  | st, t :: ts =>
      let (t1, st1, _) := execute_task env st t
      let (ts1, st2) := runTasks env st1 ts
      (t1 :: ts1, st2)

/-- The tail of `execute_task` after the handler has produced its
outcome (the `try/except/finally` bookkeeping), factored out so each
task-type case of `execute_task` can be equated to it in the proofs; its
body mirrors the tail of `execute_task` exactly. -/
def finishTask (t1 : TaskObj) (now0 : ℚ) (handlerOut : Except Err Val × St × List AEvent) :
    TaskObj × St × List AEvent :=
  let (res, st2, tr) := handlerOut
  let (t2, st3) :=
    match res with
    | Except.ok v =>
        ({ t1 with result := v, status := TaskStatus.completed },
         { st2 with metrics :=
            { st2.metrics with successful_tasks := st2.metrics.successful_tasks + 1 } })
    | Except.error e =>
        ({ t1 with error := some e.toMsg, status := TaskStatus.failed },
         { st2 with metrics :=
            { st2.metrics with failed_tasks := st2.metrics.failed_tasks + 1 } })
  let (now1, st4) := tick st3
  let latency_ms := pyInt ((now1 - now0) * 1000)
  let st5 := { st4 with metrics :=
    { st4.metrics with
        total_latency_ms := st4.metrics.total_latency_ms + latency_ms,
        total_tasks := st4.metrics.total_tasks + 1 } }
  ({ t2 with completed_at := some now1 }, st5, tr)

/-- Every registered agent method returns a value other than Python
`None` whenever it succeeds. -/
def NonNoneAgents (env : Env) : Prop :=
  ∀ (a m : String) (ag : AgentObj) (meth : AgentMethod) (kw : Payload) (i : Nat) (v : Val),
    dget env.agents a = some ag → ag m = some meth →
    meth kw i = Except.ok v → v ≠ Val.none

/-! ### Concrete fixtures for witnesses and counterexamples -/

/-- A fresh task of the given type and payload. -/
def taskOf (ty : TaskType) (pl : Payload) : TaskObj :=
  ⟨"t", ty, pl, TaskStatus.pending, 0, Option.none, Option.none, Val.none, Option.none, 0⟩

/-- A fresh orchestrator state (default breaker, zeroed metrics) with the
given pending clock samples. -/
def stTimes (ts : List ℚ) : St := ⟨⟨5, 60, [], []⟩, ⟨0, 0, 0, 0⟩, ts⟩

/-- No agents registered, transcription fails. -/
def envEmpty : Env := ⟨{}, [], fun _ => Except.error "no transcriber"⟩

/-- A "qa" agent whose `answer_question` returns Python `None`. -/
def qaNoneAgent : AgentObj := fun m =>
  if m = "answer_question" then some (fun _ _ => Except.ok Val.none) else Option.none

/-- Only the qa-returns-None agent registered. -/
def envQaNone : Env := ⟨{}, [("qa", qaNoneAgent)], fun _ => Except.error "no transcriber"⟩

/-- A "parser" agent whose `parse_file` always succeeds. -/
def parserOkAgent : AgentObj := fun m =>
  if m = "parse_file" then some (fun _ _ => Except.ok (Val.str "parsed")) else Option.none

/-- An "intake" agent whose `fetch_repo` returns eleven files. -/
def intakeElevenAgent : AgentObj := fun m =>
  if m = "fetch_repo" then
    some (fun _ _ => Except.ok (Val.dict
      [("files", Val.listV ((List.range 11).map (fun i => Val.str (toString i))))]))
  else Option.none

/-- Only the parser registered (intake missing). -/
def envParserOnly : Env := ⟨{}, [("parser", parserOkAgent)], fun _ => Except.error "no transcriber"⟩

/-- Intake (eleven files) and parser registered. -/
def envIntakeParser : Env :=
  ⟨{}, [("intake", intakeElevenAgent), ("parser", parserOkAgent)],
   fun _ => Except.error "no transcriber"⟩

/-- No agents registered, transcription succeeds with a non-keyword text. -/
def envVoiceQuery : Env := ⟨{}, [], fun _ => Except.ok "hello"⟩

/-! ### Association-list lemmas -/

theorem dget_dset_self {α : Type} (d : List (String × α)) (k : String) (v : α) :
    dget (dset d k v) k = some v := by
  induction d with
  | nil => simp [dget, dset]
  | cons hd tl ih =>
      obtain ⟨k0, v0⟩ := hd
      by_cases h : k0 = k
      · simp [dget, dset, h]
      · simp [dget, dset, h, ih]

theorem dget_dset_ne {α : Type} (d : List (String × α)) (k k' : String) (v : α)
    (h : k' ≠ k) : dget (dset d k v) k' = dget d k' := by
  have h' : ¬(k = k') := fun hh => h hh.symm
  induction d with
  | nil => simp [dget, dset, h']
  | cons hd tl ih =>
      obtain ⟨k0, v0⟩ := hd
      by_cases h0 : k0 = k
      · subst h0
        simp [dget, dset, h']
      · simp [dget, dset, h0, ih]

theorem dget_ddel_ne {α : Type} (d : List (String × α)) (k k' : String)
    (h : k' ≠ k) : dget (ddel d k) k' = dget d k' := by
  have h' : ¬(k = k') := fun hh => h hh.symm
  induction d with
  | nil => simp [dget, ddel]
  | cons hd tl ih =>
      obtain ⟨k0, v0⟩ := hd
      by_cases h0 : k0 = k
      · subst h0
        simp [dget, ddel, h']
      · simp [dget, ddel, h0, ih]

theorem dget_eq_none_of_not_mem {α : Type} (d : List (String × α)) (k : String)
    (h : k ∉ d.map Prod.fst) : dget d k = Option.none := by
  induction d with
  | nil => rfl
  | cons hd tl ih =>
      obtain ⟨k0, v0⟩ := hd
      simp only [List.map_cons, List.mem_cons] at h
      push_neg at h
      have h0 : ¬(k0 = k) := fun hh => h.1 hh.symm
      simp [dget, h0, ih h.2]

theorem dget_ddel_self {α : Type} (d : List (String × α)) (k : String)
    (hnd : (d.map Prod.fst).Nodup) : dget (ddel d k) k = Option.none := by
  induction d with
  | nil => rfl
  | cons hd tl ih =>
      obtain ⟨k0, v0⟩ := hd
      simp only [List.map_cons, List.nodup_cons] at hnd
      by_cases h0 : k0 = k
      · subst h0
        simp only [ddel, if_pos rfl]
        exact dget_eq_none_of_not_mem tl k0 hnd.1
      · simp [ddel, dget, h0, ih hnd.2]

/-! ### Claims C3 and C4: the circuit breaker -/

/-- C3: `record_failure` appends `now` to the provider's failure list,
drops entries older than the 60-second window, sets
`open_until = now + timeout` exactly when the pruned list reaches the
threshold (leaving it untouched otherwise), and leaves every other
provider's state unchanged. -/
theorem record_failure_spec (cb : CircuitBreaker) (name : String) (now : ℚ) :
    dget (cb.record_failure name now).failures name =
      some ((((dget cb.failures name).getD []) ++ [now]).filter (fun t => now - t < 60))
    ∧ (cb.threshold ≤
        ((((dget cb.failures name).getD []) ++ [now]).filter (fun t => now - t < 60)).length →
        dget (cb.record_failure name now).open_until name = some (now + cb.timeout))
    ∧ (((((dget cb.failures name).getD []) ++ [now]).filter (fun t => now - t < 60)).length
          < cb.threshold →
        dget (cb.record_failure name now).open_until name = dget cb.open_until name)
    ∧ (∀ other, other ≠ name →
        dget (cb.record_failure name now).failures other = dget cb.failures other
        ∧ dget (cb.record_failure name now).open_until other = dget cb.open_until other)
    ∧ (cb.record_failure name now).threshold = cb.threshold
    ∧ (cb.record_failure name now).timeout = cb.timeout := by
  by_cases h : cb.threshold ≤
      ((((dget cb.failures name).getD []) ++ [now]).filter (fun t => now - t < 60)).length
  · have he : cb.record_failure name now =
        { cb with
            failures := dset cb.failures name
              ((((dget cb.failures name).getD []) ++ [now]).filter (fun t => now - t < 60)),
            open_until := dset cb.open_until name (now + cb.timeout) } := by
      simp only [CircuitBreaker.record_failure]
      split
      · rfl
      · exact absurd h (by assumption)
    rw [he]
    exact ⟨dget_dset_self _ _ _, fun _ => dget_dset_self _ _ _,
      fun hlt => absurd h (not_le.mpr hlt),
      fun other hne => ⟨dget_dset_ne _ _ _ _ hne, dget_dset_ne _ _ _ _ hne⟩, rfl, rfl⟩
  · have he : cb.record_failure name now =
        { cb with
            failures := dset cb.failures name
              ((((dget cb.failures name).getD []) ++ [now]).filter (fun t => now - t < 60)) } := by
      simp only [CircuitBreaker.record_failure]
      split
      · exact absurd (by assumption) h
      · rfl
    rw [he]
    exact ⟨dget_dset_self _ _ _, fun hle => absurd hle h, fun _ => rfl,
      fun other hne => ⟨dget_dset_ne _ _ _ _ hne, rfl⟩, rfl, rfl⟩

/-- C4: `is_open` returns true exactly when an `open_until` entry exists
and the current time is before it; when the entry has expired it clears
the entry, resets that provider's failure list (full close, no half-open
state), leaves other providers untouched, and returns false; with no
entry it is a no-op returning false. -/
theorem is_open_spec (cb : CircuitBreaker) (name : String) (now : ℚ)
    (hnd : (cb.open_until.map Prod.fst).Nodup) :
    ((cb.is_open name now).1 = true ↔
        ∃ u, dget cb.open_until name = some u ∧ now < u)
    ∧ (∀ u, dget cb.open_until name = some u → u ≤ now →
        (cb.is_open name now).1 = false
        ∧ dget (cb.is_open name now).2.open_until name = Option.none
        ∧ dget (cb.is_open name now).2.failures name = some []
        ∧ (∀ other, other ≠ name →
            dget (cb.is_open name now).2.open_until other = dget cb.open_until other
            ∧ dget (cb.is_open name now).2.failures other = dget cb.failures other))
    ∧ (dget cb.open_until name = Option.none → cb.is_open name now = (false, cb)) := by
  rcases hu : dget cb.open_until name with _ | u
  · have he : cb.is_open name now = (false, cb) := by
      simp [CircuitBreaker.is_open, hu]
    refine ⟨?_, ?_, fun _ => he⟩
    · rw [he]
      simp
    · intro u hu' _
      exact absurd hu' (by simp)
  · by_cases hlt : now < u
    · have he : cb.is_open name now = (true, cb) := by
        simp [CircuitBreaker.is_open, hu, hlt]
      refine ⟨?_, ?_, ?_⟩
      · rw [he]
        exact ⟨fun _ => ⟨u, rfl, hlt⟩, fun _ => rfl⟩
      · intro u' hu' hle
        obtain rfl := Option.some.inj hu'
        exact absurd hlt (not_lt.mpr hle)
      · intro hnone
        exact absurd hnone (by simp)
    · have he : cb.is_open name now =
          (false, { cb with open_until := ddel cb.open_until name,
                            failures := dset cb.failures name [] }) := by
        simp [CircuitBreaker.is_open, hu, hlt]
      refine ⟨?_, ?_, ?_⟩
      · rw [he]
        constructor
        · intro habs
          exact absurd habs (by simp)
        · rintro ⟨u', hu', hlt'⟩
          obtain rfl := Option.some.inj hu'
          exact absurd hlt' hlt
      · intro u' hu' hle
        rw [he]
        exact ⟨rfl, dget_ddel_self _ _ hnd, dget_dset_self _ _ _,
          fun other hne => ⟨dget_ddel_ne _ _ _ hne, dget_dset_ne _ _ _ _ hne⟩⟩
      · intro hnone
        exact absurd hnone (by simp)

/-- C4 witness: a breaker whose "p" entry expired exactly at the sampled
time closes fully and reports closed. -/
theorem is_open_spec_witness :
    (((([("p", (10 : ℚ))]).map Prod.fst).Nodup)
    ∧ (CircuitBreaker.is_open ⟨5, 60, [("p", [(1 : ℚ)])], [("p", (10 : ℚ))]⟩ "p" 10).1 = false
    ∧ dget (CircuitBreaker.is_open
        ⟨5, 60, [("p", [(1 : ℚ)])], [("p", (10 : ℚ))]⟩ "p" 10).2.open_until "p" =
      Option.none) := by
  have hnd : (([("p", (10 : ℚ))]).map Prod.fst).Nodup := by simp
  have h := is_open_spec ⟨5, 60, [("p", [(1 : ℚ)])], [("p", (10 : ℚ))]⟩ "p" 10 hnd
  have h2 := h.2.1 10 (by simp [dget]) le_rfl
  exact ⟨hnd, h2.1, h2.2.1⟩

/-! ### Retry-executor lemmas (claims C5, C6, C7) -/

theorem tick_eq (st : St) :
    tick st = (st.times.headD 0, { st with times := st.times.tail }) := by
  rcases st with ⟨cb, ms, ts⟩
  cases ts <;> rfl

theorem execute_agent_closed (env : Env) (st : St) (name m : String) (kwargs : Payload)
    (ag : AgentObj) (meth : AgentMethod)
    (hnotopen : dget st.cb.open_until name = Option.none)
    (hagent : dget env.agents name = some ag)
    (hmeth : ag m = some meth) :
    execute_agent env st name m kwargs =
      retryLoop env name m meth kwargs st 0 env.settings.retry_max_attempts := by
  simp [execute_agent, stIsOpen, hnotopen, hagent, hmeth]

theorem retryLoop_step_ok (env : Env) (name m : String) (meth : AgentMethod)
    (kwargs : Payload) (st : St) (attempt rem : Nat) (v : Val)
    (h : meth kwargs attempt = Except.ok v) :
    retryLoop env name m meth kwargs st attempt (rem + 1) =
      (Except.ok v, { st with cb := st.cb.record_success name },
       [AEvent.invoke name m attempt, AEvent.recSuccess name]) := by
  simp [retryLoop, h]

theorem retryLoop_step_err_wait (env : Env) (name m : String) (meth : AgentMethod)
    (kwargs : Payload) (st : St) (attempt rem : Nat) (e : String)
    (h : meth kwargs attempt = Except.error e)
    (hcond : attempt < env.settings.retry_max_attempts - 1) :
    retryLoop env name m meth kwargs st attempt (rem + 1) =
      ((retryLoop env name m meth kwargs st (attempt + 1) rem).1,
       (retryLoop env name m meth kwargs st (attempt + 1) rem).2.1,
       AEvent.invoke name m attempt ::
         AEvent.sleep (env.settings.retry_backoff_base * 2 ^ attempt) ::
         (retryLoop env name m meth kwargs st (attempt + 1) rem).2.2) := by
  simp [retryLoop, h, hcond]

theorem retryLoop_step_err_last (env : Env) (name m : String) (meth : AgentMethod)
    (kwargs : Payload) (st : St) (attempt rem : Nat) (e : String)
    (h : meth kwargs attempt = Except.error e)
    (hcond : ¬ attempt < env.settings.retry_max_attempts - 1) :
    retryLoop env name m meth kwargs st attempt (rem + 1) =
      (Except.error (Err.agentError e),
       { st with times := st.times.tail,
                 cb := st.cb.record_failure name (st.times.headD 0) },
       [AEvent.invoke name m attempt, AEvent.recFailure name]) := by
  simp [retryLoop, h, hcond, tick_eq]

theorem retryLoop_trace_head (env : Env) (name m : String) (meth : AgentMethod)
    (kwargs : Payload) (st : St) (attempt rem : Nat) :
    ∃ tr, (retryLoop env name m meth kwargs st attempt (rem + 1)).2.2 =
      AEvent.invoke name m attempt :: tr := by
  rcases hm : meth kwargs attempt with e | v
  · by_cases hcond : attempt < env.settings.retry_max_attempts - 1
    · rw [retryLoop_step_err_wait env name m meth kwargs st attempt rem e hm hcond]
      exact ⟨_, rfl⟩
    · rw [retryLoop_step_err_last env name m meth kwargs st attempt rem e hm hcond]
      exact ⟨_, rfl⟩
  · rw [retryLoop_step_ok env name m meth kwargs st attempt rem v hm]
    exact ⟨_, rfl⟩

/-- C5: when the provider's circuit is open at the start of
`_execute_agent`, the call fails at once with the circuit-open error,
consuming no attempt (empty event trace: the operation is never invoked
and nothing is recorded on the breaker) and leaving the breaker state
untouched; once the cooldown has elapsed the next call invokes the
operation normally. -/
theorem circuit_open_fail_fast (env : Env) (st : St) (name m : String)
    (kwargs : Payload) (now u : ℚ) (rest : List ℚ)
    (htimes : st.times = now :: rest)
    (hu : dget st.cb.open_until name = some u) :
    (now < u →
      execute_agent env st name m kwargs =
        (Except.error (Err.circuitOpen name), { st with times := rest }, []))
    ∧ (u ≤ now →
        ∀ (ag : AgentObj) (meth : AgentMethod),
          dget env.agents name = some ag → ag m = some meth →
          1 ≤ env.settings.retry_max_attempts →
          ∃ tr, (execute_agent env st name m kwargs).2.2 =
            AEvent.invoke name m 0 :: tr) := by
  constructor
  · intro hlt
    simp [execute_agent, stIsOpen, hu, htimes, tick, CircuitBreaker.is_open, hlt]
  · intro hle ag meth hagent hmeth hmax
    have hnotlt : ¬ now < u := not_lt.mpr hle
    have he : execute_agent env st name m kwargs =
        retryLoop env name m meth kwargs
          { st with times := rest,
                    cb := { st.cb with open_until := ddel st.cb.open_until name,
                                       failures := dset st.cb.failures name [] } }
          0 env.settings.retry_max_attempts := by
      simp [execute_agent, stIsOpen, hu, htimes, tick, CircuitBreaker.is_open, hnotlt,
        hagent, hmeth]
    rw [he]
    obtain ⟨k, hk⟩ := Nat.exists_eq_add_of_le hmax
    rw [show env.settings.retry_max_attempts = k + 1 by omega]
    exact retryLoop_trace_head env name m meth kwargs _ 0 k

/-- C5 witness at a concrete open breaker. -/
theorem circuit_open_fail_fast_witness :
    ((⟨⟨5, 60, [], [("p", (10 : ℚ))]⟩, ⟨0, 0, 0, 0⟩, [(3 : ℚ)]⟩ : St).times = [(3 : ℚ)]
    ∧ dget (⟨⟨5, 60, [], [("p", (10 : ℚ))]⟩, ⟨0, 0, 0, 0⟩, [(3 : ℚ)]⟩ : St).cb.open_until "p" =
        some (10 : ℚ))
    ∧ (((3 : ℚ) < 10 →
      execute_agent ⟨{}, [], fun _ => Except.error "no"⟩
          ⟨⟨5, 60, [], [("p", (10 : ℚ))]⟩, ⟨0, 0, 0, 0⟩, [(3 : ℚ)]⟩ "p" "op" [] =
        (Except.error (Err.circuitOpen "p"),
         { (⟨⟨5, 60, [], [("p", (10 : ℚ))]⟩, ⟨0, 0, 0, 0⟩, [(3 : ℚ)]⟩ : St) with times := [] }, []))
    ∧ ((10 : ℚ) ≤ 3 →
        ∀ (ag : AgentObj) (meth : AgentMethod),
          dget (⟨{}, [], fun _ => Except.error "no"⟩ : Env).agents "p" = some ag →
          ag "op" = some meth →
          1 ≤ (⟨{}, [], fun _ => Except.error "no"⟩ : Env).settings.retry_max_attempts →
          ∃ tr, (execute_agent ⟨{}, [], fun _ => Except.error "no"⟩
              ⟨⟨5, 60, [], [("p", (10 : ℚ))]⟩, ⟨0, 0, 0, 0⟩, [(3 : ℚ)]⟩ "p" "op" []).2.2 =
            AEvent.invoke "p" "op" 0 :: tr)) := by
  refine ⟨⟨rfl, by simp [dget]⟩, ?_⟩
  exact circuit_open_fail_fast ⟨{}, [], fun _ => Except.error "no"⟩
    ⟨⟨5, 60, [], [("p", (10 : ℚ))]⟩, ⟨0, 0, 0, 0⟩, [(3 : ℚ)]⟩ "p" "op" [] 3 10 []
    rfl (by simp [dget])

theorem retryLoop_all_fail (env : Env) (name m : String) (meth : AgentMethod)
    (kwargs : Payload) (errs : Nat → String)
    (hfail : ∀ i, i < env.settings.retry_max_attempts →
      meth kwargs i = Except.error (errs i)) :
    ∀ rem attempt st, attempt + rem = env.settings.retry_max_attempts → 1 ≤ rem →
      retryLoop env name m meth kwargs st attempt rem =
        (Except.error (Err.agentError (errs (env.settings.retry_max_attempts - 1))),
         { st with times := st.times.tail,
                   cb := st.cb.record_failure name (st.times.headD 0) },
         (((List.range (rem - 1)).map
             (fun j => [AEvent.invoke name m (attempt + j),
                        AEvent.sleep
                          (env.settings.retry_backoff_base * 2 ^ (attempt + j))])).flatten)
           ++ [AEvent.invoke name m (attempt + rem - 1), AEvent.recFailure name]) := by
  intro rem
  induction rem with
  | zero => intro attempt st hsum hone; omega
  | succ r ih =>
      intro attempt st hsum _
      rcases r with _ | r'
      · have hcond : ¬ attempt < env.settings.retry_max_attempts - 1 := by omega
        have hlast : attempt = env.settings.retry_max_attempts - 1 := by omega
        rw [retryLoop_step_err_last env name m meth kwargs st attempt 0 (errs attempt)
          (hfail attempt (by omega)) hcond]
        simp [hlast]
      · have hcond : attempt < env.settings.retry_max_attempts - 1 := by omega
        rw [retryLoop_step_err_wait env name m meth kwargs st attempt (r' + 1) (errs attempt)
          (hfail attempt (by omega)) hcond]
        rw [ih (attempt + 1) st (by omega) (by omega)]
        refine congrArg _ (congrArg _ ?_)
        simp only [Nat.add_sub_cancel, List.range_succ_eq_map, List.map_cons, List.map_map,
          List.flatten_cons, Nat.add_zero, List.cons_append]
        refine congrArg _ (congrArg _ ?_)
        have hmap : ((List.range r').map
            ((fun j => [AEvent.invoke name m (attempt + j),
              AEvent.sleep (env.settings.retry_backoff_base * 2 ^ (attempt + j))]) ∘ Nat.succ)) =
            ((List.range r').map
            (fun j => [AEvent.invoke name m (attempt + 1 + j),
              AEvent.sleep (env.settings.retry_backoff_base * 2 ^ (attempt + 1 + j))])) := by
          refine List.map_congr_left ?_
          intro j _
          have hj : attempt + Nat.succ j = attempt + 1 + j := by omega
          simp [Function.comp, hj]
        rw [hmap]
        have hidx : attempt + 1 + (r' + 1) - 1 = attempt + (r' + 1 + 1) - 1 := by omega
        rw [hidx]
        simp

/-- C7: when every attempt of the retry loop fails, the call fails with
the last attempt's error after invoking the operation exactly
`retry_max_attempts` times, sleeping `backoff_base * 2 ^ i` after each
non-final attempt `i`, and `record_failure` is called exactly once — as
the very last event, after the final attempt (the attempt count is the
number of invoke events; the propagated error is the re-raised last
error). -/
theorem retry_exhaustion_spec (env : Env) (st : St) (name m : String)
    (kwargs : Payload) (ag : AgentObj) (meth : AgentMethod) (errs : Nat → String)
    (hnotopen : dget st.cb.open_until name = Option.none)
    (hagent : dget env.agents name = some ag)
    (hmeth : ag m = some meth)
    (hmax : 1 ≤ env.settings.retry_max_attempts)
    (hfail : ∀ i, i < env.settings.retry_max_attempts →
      meth kwargs i = Except.error (errs i)) :
    execute_agent env st name m kwargs =
      (Except.error (Err.agentError (errs (env.settings.retry_max_attempts - 1))),
       { st with times := st.times.tail,
                 cb := st.cb.record_failure name (st.times.headD 0) },
       (((List.range (env.settings.retry_max_attempts - 1)).map
           (fun j => [AEvent.invoke name m j,
                      AEvent.sleep (env.settings.retry_backoff_base * 2 ^ j)])).flatten)
         ++ [AEvent.invoke name m (env.settings.retry_max_attempts - 1),
             AEvent.recFailure name]) := by
  rw [execute_agent_closed env st name m kwargs ag meth hnotopen hagent hmeth]
  have h := retryLoop_all_fail env name m meth kwargs errs hfail
    env.settings.retry_max_attempts 0 st (by omega) hmax
  simpa using h

/-- C7 witness: a method failing on all three default attempts. -/
theorem retry_exhaustion_spec_witness :
    (dget (⟨⟨5, 60, [], []⟩, ⟨0, 0, 0, 0⟩, [(7 : ℚ)]⟩ : St).cb.open_until "p" = Option.none
    ∧ dget [("p", (fun _ => some (fun _ i => Except.error ("e" ++ toString i))
        : AgentObj))] "p" =
        some (fun _ => some (fun _ i => Except.error ("e" ++ toString i)))
    ∧ 1 ≤ (⟨{}, [("p", (fun _ => some (fun _ i => Except.error ("e" ++ toString i))
        : AgentObj))], fun _ => Except.error "no"⟩ : Env).settings.retry_max_attempts)
    ∧ execute_agent
        ⟨{}, [("p", (fun _ => some (fun _ i => Except.error ("e" ++ toString i))
          : AgentObj))], fun _ => Except.error "no"⟩
        ⟨⟨5, 60, [], []⟩, ⟨0, 0, 0, 0⟩, [(7 : ℚ)]⟩ "p" "op" [] =
      (Except.error (Err.agentError ("e" ++ toString
        ((⟨{}, [("p", (fun _ => some (fun _ i => Except.error ("e" ++ toString i))
          : AgentObj))], fun _ => Except.error "no"⟩ : Env).settings.retry_max_attempts - 1))),
       { (⟨⟨5, 60, [], []⟩, ⟨0, 0, 0, 0⟩, [(7 : ℚ)]⟩ : St) with
           times := ([(7 : ℚ)]).tail,
           cb := CircuitBreaker.record_failure ⟨5, 60, [], []⟩ "p" (([(7 : ℚ)]).headD 0) },
       (((List.range ((⟨{}, [("p", (fun _ => some (fun _ i => Except.error ("e" ++ toString i))
            : AgentObj))], fun _ => Except.error "no"⟩ : Env).settings.retry_max_attempts - 1)).map
           (fun j => [AEvent.invoke "p" "op" j,
                      AEvent.sleep ((1 : ℚ) * 2 ^ j)])).flatten)
         ++ [AEvent.invoke "p" "op"
              ((⟨{}, [("p", (fun _ => some (fun _ i => Except.error ("e" ++ toString i))
                : AgentObj))], fun _ => Except.error "no"⟩ : Env).settings.retry_max_attempts - 1),
             AEvent.recFailure "p"]) := by
  refine ⟨⟨by simp [dget], by simp [dget], by norm_num⟩, ?_⟩
  exact retry_exhaustion_spec
    ⟨{}, [("p", (fun _ => some (fun _ i => Except.error ("e" ++ toString i))
      : AgentObj))], fun _ => Except.error "no"⟩
    ⟨⟨5, 60, [], []⟩, ⟨0, 0, 0, 0⟩, [(7 : ℚ)]⟩ "p" "op" []
    (fun _ => some (fun _ i => Except.error ("e" ++ toString i)))
    (fun _ i => Except.error ("e" ++ toString i))
    (fun i => "e" ++ toString i)
    (by simp [dget]) (by simp [dget]) rfl (by norm_num)
    (fun i _ => rfl)

/-- C6: with `retry_max_attempts = 3` and `backoff_base = 1`, an
operation failing on attempts 0 and 1 and succeeding on attempt 2 makes
the call return the success value after sleeping 1s then 2s, with no
further attempt after the success, a `record_success` as the final event,
and the provider's failure list empty afterwards. -/
theorem retry_success_third_attempt (env : Env) (st : St) (name m : String)
    (kwargs : Payload) (ag : AgentObj) (meth : AgentMethod) (v : Val) (e0 e1 : String)
    (hmax : env.settings.retry_max_attempts = 3)
    (hbase : env.settings.retry_backoff_base = 1)
    (hnotopen : dget st.cb.open_until name = Option.none)
    (hagent : dget env.agents name = some ag)
    (hmeth : ag m = some meth)
    (h0 : meth kwargs 0 = Except.error e0)
    (h1 : meth kwargs 1 = Except.error e1)
    (h2 : meth kwargs 2 = Except.ok v) :
    execute_agent env st name m kwargs =
      (Except.ok v, { st with cb := st.cb.record_success name },
       [AEvent.invoke name m 0, AEvent.sleep 1,
        AEvent.invoke name m 1, AEvent.sleep 2,
        AEvent.invoke name m 2, AEvent.recSuccess name])
    ∧ (dget (st.cb.record_success name).failures name).getD [] = [] := by
  constructor
  · rw [execute_agent_closed env st name m kwargs ag meth hnotopen hagent hmeth, hmax]
    rw [show (3 : Nat) = 2 + 1 from rfl]
    rw [retryLoop_step_err_wait env name m meth kwargs st 0 2 e0 h0 (by omega)]
    rw [show (2 : Nat) = 1 + 1 from rfl]
    rw [retryLoop_step_err_wait env name m meth kwargs st (0 + 1) 1 e1 (by simpa using h1)
      (by omega)]
    rw [show (1 : Nat) = 0 + 1 from rfl]
    rw [retryLoop_step_ok env name m meth kwargs st (0 + 1 + 1) 0 v (by simpa using h2)]
    simp [hbase]
  · rcases hf : dget st.cb.failures name with _ | l
    · simp [CircuitBreaker.record_success, hf]
    · simp [CircuitBreaker.record_success, hf, dget_dset_self]

/-- C6 witness: a concrete method that fails twice then succeeds. -/
theorem retry_success_third_attempt_witness :
    ((⟨{}, [("p", (fun _ => some (fun _ i =>
        if i < 2 then Except.error "boom" else Except.ok (Val.str "done"))
        : AgentObj))], fun _ => Except.error "no"⟩ : Env).settings.retry_max_attempts = 3
    ∧ dget (⟨⟨5, 60, [], []⟩, ⟨0, 0, 0, 0⟩, []⟩ : St).cb.open_until "p" = Option.none)
    ∧ (execute_agent
        ⟨{}, [("p", (fun _ => some (fun _ i =>
          if i < 2 then Except.error "boom" else Except.ok (Val.str "done"))
          : AgentObj))], fun _ => Except.error "no"⟩
        ⟨⟨5, 60, [], []⟩, ⟨0, 0, 0, 0⟩, []⟩ "p" "op" [] =
      (Except.ok (Val.str "done"),
       { (⟨⟨5, 60, [], []⟩, ⟨0, 0, 0, 0⟩, []⟩ : St) with
           cb := CircuitBreaker.record_success ⟨5, 60, [], []⟩ "p" },
       [AEvent.invoke "p" "op" 0, AEvent.sleep 1,
        AEvent.invoke "p" "op" 1, AEvent.sleep 2,
        AEvent.invoke "p" "op" 2, AEvent.recSuccess "p"])
    ∧ (dget ((CircuitBreaker.record_success ⟨5, 60, [], []⟩ "p")).failures "p").getD [] = []) := by
  refine ⟨⟨rfl, by simp [dget]⟩, ?_⟩
  exact retry_success_third_attempt
    ⟨{}, [("p", (fun _ => some (fun _ i =>
      if i < 2 then Except.error "boom" else Except.ok (Val.str "done"))
      : AgentObj))], fun _ => Except.error "no"⟩
    ⟨⟨5, 60, [], []⟩, ⟨0, 0, 0, 0⟩, []⟩ "p" "op" []
    (fun _ => some (fun _ i =>
      if i < 2 then Except.error "boom" else Except.ok (Val.str "done")))
    (fun _ i => if i < 2 then Except.error "boom" else Except.ok (Val.str "done"))
    (Val.str "done") "boom" "boom"
    rfl rfl (by simp [dget]) (by simp [dget]) rfl rfl rfl rfl

/-! ### Unfolding equations for `execute_task` -/

theorem execute_task_eq_repo (env : Env) (st : St) (t : TaskObj)
    (h : t.task_type = TaskType.repo_ingest) :
    execute_task env st t =
      finishTask { t with status := TaskStatus.running, started_at := some (tick st).1 }
        (tick st).1
        (handle_repo_ingest env (tick st).2
          { t with status := TaskStatus.running, started_at := some (tick st).1 }) := by
  rcases t with ⟨tid, ty, pl, s, ca, sa, co, r, er, rc⟩
  simp only at h
  subst h
  rw [execute_task]
  rfl

theorem execute_task_eq_query (env : Env) (st : St) (t : TaskObj)
    (h : t.task_type = TaskType.user_query) :
    execute_task env st t =
      finishTask { t with status := TaskStatus.running, started_at := some (tick st).1 }
        (tick st).1
        (handle_user_query env (tick st).2
          { t with status := TaskStatus.running, started_at := some (tick st).1 }) := by
  rcases t with ⟨tid, ty, pl, s, ca, sa, co, r, er, rc⟩
  simp only at h
  subst h
  rw [execute_task]
  rfl

theorem execute_task_eq_webhook (env : Env) (st : St) (t : TaskObj)
    (h : t.task_type = TaskType.pr_webhook) :
    execute_task env st t =
      finishTask { t with status := TaskStatus.running, started_at := some (tick st).1 }
        (tick st).1
        (handle_pr_webhook env (tick st).2
          { t with status := TaskStatus.running, started_at := some (tick st).1 }) := by
  rcases t with ⟨tid, ty, pl, s, ca, sa, co, r, er, rc⟩
  simp only at h
  subst h
  rw [execute_task]
  rfl

theorem execute_task_eq_docs (env : Env) (st : St) (t : TaskObj)
    (h : t.task_type = TaskType.generate_docs) :
    execute_task env st t =
      finishTask { t with status := TaskStatus.running, started_at := some (tick st).1 }
        (tick st).1
        (handle_generate_docs env (tick st).2
          { t with status := TaskStatus.running, started_at := some (tick st).1 }) := by
  rcases t with ⟨tid, ty, pl, s, ca, sa, co, r, er, rc⟩
  simp only at h
  subst h
  rw [execute_task]
  rfl

theorem execute_task_eq_voice (env : Env) (st : St) (t : TaskObj)
    (h : t.task_type = TaskType.voice_command) :
    execute_task env st t =
      finishTask { t with status := TaskStatus.running, started_at := some (tick st).1 }
        (tick st).1
        (match env.transcribe (pget t.payload "audio_path") with
         | Except.error m => (Except.error (Err.transcribeError m), (tick st).2, [])
         | Except.ok transcription =>
            if (["index", "ingest", "add"].any
                fun w => containsSub transcription.toLower w) then
              (Except.ok (Val.taskV (execute_task env (tick (tick st).2).2
                  (voiceDerivedIngest
                    { t with status := TaskStatus.running, started_at := some (tick st).1 }
                    (tick (tick st).2).1)).1),
               (execute_task env (tick (tick st).2).2
                  (voiceDerivedIngest
                    { t with status := TaskStatus.running, started_at := some (tick st).1 }
                    (tick (tick st).2).1)).2.1,
               (execute_task env (tick (tick st).2).2
                  (voiceDerivedIngest
                    { t with status := TaskStatus.running, started_at := some (tick st).1 }
                    (tick (tick st).2).1)).2.2)
            else
              (Except.ok (Val.taskV (execute_task env (tick (tick st).2).2
                  (voiceDerivedQuery
                    { t with status := TaskStatus.running, started_at := some (tick st).1 }
                    transcription (tick (tick st).2).1)).1),
               (execute_task env (tick (tick st).2).2
                  (voiceDerivedQuery
                    { t with status := TaskStatus.running, started_at := some (tick st).1 }
                    transcription (tick (tick st).2).1)).2.1,
               (execute_task env (tick (tick st).2).2
                  (voiceDerivedQuery
                    { t with status := TaskStatus.running, started_at := some (tick st).1 }
                    transcription (tick (tick st).2).1)).2.2)) := by
  rcases t with ⟨tid, ty, pl, s, ca, sa, co, r, er, rc⟩
  simp only at h
  subst h
  rw [execute_task]
  rfl

theorem finishTask_eq (t1 : TaskObj) (now0 : ℚ) (res : Except Err Val) (st2 : St)
    (tr : List AEvent) :
    finishTask t1 now0 (res, st2, tr) =
      ((match res with
        | Except.ok v =>
            { t1 with
                status := TaskStatus.completed,
                result := v,
                completed_at := some (st2.times.headD 0) }
        | Except.error e =>
            { t1 with
                status := TaskStatus.failed,
                error := some e.toMsg,
                completed_at := some (st2.times.headD 0) }),
       { st2 with
           times := st2.times.tail,
           metrics := ⟨st2.metrics.total_tasks + 1,
           st2.metrics.successful_tasks +
             (match res with | Except.ok _ => 1 | Except.error _ => 0),
           st2.metrics.failed_tasks +
             (match res with | Except.ok _ => 0 | Except.error _ => 1),
           st2.metrics.total_latency_ms + pyInt ((st2.times.headD 0 - now0) * 1000)⟩ },
       tr) := by
  rcases res with e | v <;> simp [finishTask, tick_eq]

/-! ### Metrics-preservation: no handler path touches the counters -/

theorem retryLoop_metrics (env : Env) (n m : String) (meth : AgentMethod) (kw : Payload) :
    ∀ (rem : Nat) (st : St) (attempt : Nat),
      (retryLoop env n m meth kw st attempt rem).2.1.metrics = st.metrics := by
  intro rem
  induction rem with
  | zero => intro st attempt; rfl
  | succ r ih =>
      intro st attempt
      rcases hm : meth kw attempt with e | v
      · by_cases hc : attempt < env.settings.retry_max_attempts - 1
        · rw [retryLoop_step_err_wait env n m meth kw st attempt r e hm hc]
          exact ih st (attempt + 1)
        · rw [retryLoop_step_err_last env n m meth kw st attempt r e hm hc]
      · rw [retryLoop_step_ok env n m meth kw st attempt r v hm]

theorem stIsOpen_metrics (st : St) (n : String) : (stIsOpen st n).2.metrics = st.metrics := by
  unfold stIsOpen
  rcases h : dget st.cb.open_until n with _ | u
  · rfl
  · simp [tick_eq, CircuitBreaker.is_open, h]

theorem execute_agent_metrics (env : Env) (st : St) (n m : String) (kw : Payload) :
    (execute_agent env st n m kw).2.1.metrics = st.metrics := by
  unfold execute_agent
  rcases hso : stIsOpen st n with ⟨b, st1⟩
  have hm1 : st1.metrics = st.metrics := by
    have := stIsOpen_metrics st n
    rw [hso] at this
    exact this
  rcases b with _ | _
  · rcases ha : dget env.agents n with _ | ag
    · simpa using hm1
    · rcases hg : ag m with _ | meth
      · simpa [hg] using hm1
      · simpa [hg, retryLoop_metrics] using hm1
  · simpa using hm1

theorem fanOutParse_metrics (env : Env) :
    ∀ (fs : List Val) (st : St), (fanOutParse env st fs).2.1.metrics = st.metrics := by
  intro fs
  induction fs with
  | nil => intro st; rfl
  | cons f rest ih =>
      intro st
      simp only [fanOutParse]
      rcases he : execute_agent env st "parser" "parse_file" [("file_path", f)] with ⟨r, st1, tr⟩
      have h1 : st1.metrics = st.metrics := by
        have := execute_agent_metrics env st "parser" "parse_file" [("file_path", f)]
        rw [he] at this
        exact this
      simp [ih st1, h1]

theorem repoStep1_metrics (env : Env) (st : St) (u b : Val) (results : Payload) :
    (repoStep1 env st u b results).2.1.metrics = st.metrics := by
  unfold repoStep1
  split
  · rcases he : execute_agent env st "intake" "fetch_repo"
        [("repo_url", u), ("branch", b)] with ⟨r, st1, tr⟩
    have h1 : st1.metrics = st.metrics := by
      have := execute_agent_metrics env st "intake" "fetch_repo" [("repo_url", u), ("branch", b)]
      rw [he] at this
      exact this
    rcases r with e | v <;> simpa using h1
  · rfl

theorem repoStep2_metrics (env : Env) (st : St) (results : Payload) :
    (repoStep2 env st results).2.1.metrics = st.metrics := by
  unfold repoStep2
  split
  · rcases hg : (pget results "intake").pyGet "files" (Val.listV []) with e | vfiles
    · rfl
    · dsimp only
      rcases hs : vfiles.pySliceTen with e | files
      · rfl
      · dsimp only
        rcases he : fanOutParse env st files with ⟨rs, st1, tr⟩
        have h1 : st1.metrics = st.metrics := by
          have := fanOutParse_metrics env files st
          rw [he] at this
          exact this
        simpa using h1
  · rfl

theorem repoStep3_metrics (env : Env) (st : St) (results : Payload) :
    (repoStep3 env st results).2.1.metrics = st.metrics := by
  unfold repoStep3
  split
  · rcases he : execute_agent env st "chunker_indexer" "index_chunks"
        [("parsed_data", pget results "parser")] with ⟨r, st1, tr⟩
    have h1 : st1.metrics = st.metrics := by
      have := execute_agent_metrics env st "chunker_indexer" "index_chunks"
        [("parsed_data", pget results "parser")]
      rw [he] at this
      exact this
    rcases r with e | v <;> simpa using h1
  · rfl

theorem repoStep4_metrics (env : Env) (st : St) (u : Val) (results : Payload) :
    (repoStep4 env st u results).2.1.metrics = st.metrics := by
  unfold repoStep4
  split
  · rcases he : execute_agent env st "summarizer" "generate_overview"
        [("repo_url", u)] with ⟨r, st1, tr⟩
    have h1 : st1.metrics = st.metrics := by
      have := execute_agent_metrics env st "summarizer" "generate_overview" [("repo_url", u)]
      rw [he] at this
      exact this
    rcases r with e | v <;> simpa using h1
  · rfl

theorem handle_repo_ingest_metrics (env : Env) (st : St) (t : TaskObj) :
    (handle_repo_ingest env st t).2.1.metrics = st.metrics := by
  unfold handle_repo_ingest
  rcases h1 : repoStep1 env st (pget t.payload "repo_url")
      (pgetD t.payload "branch" (Val.str "main")) [] with ⟨r1, st1, tr1⟩
  have hm1 : st1.metrics = st.metrics := by
    have := repoStep1_metrics env st (pget t.payload "repo_url")
      (pgetD t.payload "branch" (Val.str "main")) []
    rw [h1] at this
    exact this
  rcases r1 with e | results1
  · simpa [h1] using hm1
  · rcases h2 : repoStep2 env st1 results1 with ⟨r2, st2, tr2⟩
    have hm2 : st2.metrics = st1.metrics := by
      have := repoStep2_metrics env st1 results1
      rw [h2] at this
      exact this
    rcases r2 with e | results2
    · simp [h1, h2, hm2, hm1]
    · rcases h3 : repoStep3 env st2 results2 with ⟨r3, st3, tr3⟩
      have hm3 : st3.metrics = st2.metrics := by
        have := repoStep3_metrics env st2 results2
        rw [h3] at this
        exact this
      rcases r3 with e | results3
      · simp [h1, h2, h3, hm3, hm2, hm1]
      · rcases h4 : repoStep4 env st3 (pget t.payload "repo_url") results3 with ⟨r4, st4, tr4⟩
        have hm4 : st4.metrics = st3.metrics := by
          have := repoStep4_metrics env st3 (pget t.payload "repo_url") results3
          rw [h4] at this
          exact this
        rcases r4 with e | results4
        · simp [h1, h2, h3, h4, hm4, hm3, hm2, hm1]
        · simp [h1, h2, h3, h4, hm4, hm3, hm2, hm1]

theorem handle_user_query_metrics (env : Env) (st : St) (t : TaskObj) :
    (handle_user_query env st t).2.1.metrics = st.metrics := by
  unfold handle_user_query
  split
  · rfl
  · rcases he : execute_agent env (tick st).2 "qa" "answer_question"
        [("question", pget t.payload "query"), ("repo_id", pget t.payload "repo_id")]
      with ⟨r, st2, tr⟩
    have h1 : st2.metrics = st.metrics := by
      have := execute_agent_metrics env (tick st).2 "qa" "answer_question"
        [("question", pget t.payload "query"), ("repo_id", pget t.payload "repo_id")]
      rw [he] at this
      rw [this, tick_eq]
    simp only [tick_eq] at he ⊢
    rw [he]
    rcases r with e | v
    · simpa using h1
    · simpa [tick_eq] using h1

theorem handle_pr_webhook_metrics (env : Env) (st : St) (t : TaskObj) :
    (handle_pr_webhook env st t).2.1.metrics = st.metrics := by
  unfold handle_pr_webhook
  split
  · rfl
  · exact execute_agent_metrics env st "change" "analyze_pr" _

theorem handle_generate_docs_metrics (env : Env) (st : St) (t : TaskObj) :
    (handle_generate_docs env st t).2.1.metrics = st.metrics := by
  unfold handle_generate_docs
  split
  · rfl
  · exact execute_agent_metrics env st "summarizer" "generate_docs" _

theorem finishTask_delta (t1 : TaskObj) (now0 : ℚ) (res : Except Err Val) (st2 : St)
    (tr : List AEvent) (m0 : Metrics) (hm : st2.metrics = m0)
    (hstart : t1.started_at = some now0) :
    ((finishTask t1 now0 (res, st2, tr)).1.status = TaskStatus.completed
      ∨ (finishTask t1 now0 (res, st2, tr)).1.status = TaskStatus.failed)
    ∧ (finishTask t1 now0 (res, st2, tr)).2.1.metrics.total_tasks = m0.total_tasks + 1
    ∧ (finishTask t1 now0 (res, st2, tr)).2.1.metrics.successful_tasks =
        m0.successful_tasks +
          (if (finishTask t1 now0 (res, st2, tr)).1.status = TaskStatus.completed
           then 1 else 0)
    ∧ (finishTask t1 now0 (res, st2, tr)).2.1.metrics.failed_tasks =
        m0.failed_tasks +
          (if (finishTask t1 now0 (res, st2, tr)).1.status = TaskStatus.completed
           then 0 else 1)
    ∧ ∃ s c, (finishTask t1 now0 (res, st2, tr)).1.started_at = some s
        ∧ (finishTask t1 now0 (res, st2, tr)).1.completed_at = some c
        ∧ (finishTask t1 now0 (res, st2, tr)).2.1.metrics.total_latency_ms =
            m0.total_latency_ms + pyInt ((c - s) * 1000) := by
  subst hm
  rw [finishTask_eq]
  rcases res with e | v
  · exact ⟨Or.inr rfl, rfl, by simp, by simp,
      now0, st2.times.headD 0, by simpa using hstart, rfl, rfl⟩
  · exact ⟨Or.inl rfl, rfl, by simp, by simp,
      now0, st2.times.headD 0, by simpa using hstart, rfl, rfl⟩

theorem exec_metrics_delta (env : Env) (st : St) (t : TaskObj)
    (hnv : t.task_type ≠ TaskType.voice_command) :
    ((execute_task env st t).1.status = TaskStatus.completed
      ∨ (execute_task env st t).1.status = TaskStatus.failed)
    ∧ (execute_task env st t).2.1.metrics.total_tasks = st.metrics.total_tasks + 1
    ∧ (execute_task env st t).2.1.metrics.successful_tasks =
        st.metrics.successful_tasks +
          (if (execute_task env st t).1.status = TaskStatus.completed then 1 else 0)
    ∧ (execute_task env st t).2.1.metrics.failed_tasks =
        st.metrics.failed_tasks +
          (if (execute_task env st t).1.status = TaskStatus.completed then 0 else 1)
    ∧ ∃ s c, (execute_task env st t).1.started_at = some s
        ∧ (execute_task env st t).1.completed_at = some c
        ∧ (execute_task env st t).2.1.metrics.total_latency_ms =
            st.metrics.total_latency_ms + pyInt ((c - s) * 1000) := by
  have htick : (tick st).2.metrics = st.metrics := by
    rw [tick_eq]
  rcases ht : t.task_type
  case repo_ingest =>
    rw [execute_task_eq_repo env st t ht]
    rcases ho : handle_repo_ingest env (tick st).2
        { t with status := TaskStatus.running, started_at := some (tick st).1 }
      with ⟨res, st2, tr⟩
    have hm2 : st2.metrics = st.metrics := by
      have := handle_repo_ingest_metrics env (tick st).2
        { t with status := TaskStatus.running, started_at := some (tick st).1 }
      rw [ho] at this
      rw [this, htick]
    exact finishTask_delta _ _ res st2 tr st.metrics hm2 rfl
  case user_query =>
    rw [execute_task_eq_query env st t ht]
    rcases ho : handle_user_query env (tick st).2
        { t with status := TaskStatus.running, started_at := some (tick st).1 }
      with ⟨res, st2, tr⟩
    have hm2 : st2.metrics = st.metrics := by
      have := handle_user_query_metrics env (tick st).2
        { t with status := TaskStatus.running, started_at := some (tick st).1 }
      rw [ho] at this
      rw [this, htick]
    exact finishTask_delta _ _ res st2 tr st.metrics hm2 rfl
  case pr_webhook =>
    rw [execute_task_eq_webhook env st t ht]
    rcases ho : handle_pr_webhook env (tick st).2
        { t with status := TaskStatus.running, started_at := some (tick st).1 }
      with ⟨res, st2, tr⟩
    have hm2 : st2.metrics = st.metrics := by
      have := handle_pr_webhook_metrics env (tick st).2
        { t with status := TaskStatus.running, started_at := some (tick st).1 }
      rw [ho] at this
      rw [this, htick]
    exact finishTask_delta _ _ res st2 tr st.metrics hm2 rfl
  case generate_docs =>
    rw [execute_task_eq_docs env st t ht]
    rcases ho : handle_generate_docs env (tick st).2
        { t with status := TaskStatus.running, started_at := some (tick st).1 }
      with ⟨res, st2, tr⟩
    have hm2 : st2.metrics = st.metrics := by
      have := handle_generate_docs_metrics env (tick st).2
        { t with status := TaskStatus.running, started_at := some (tick st).1 }
      rw [ho] at this
      rw [this, htick]
    exact finishTask_delta _ _ res st2 tr st.metrics hm2 rfl
  case voice_command => exact absurd ht hnv

theorem runTasks_metrics (env : Env) :
    ∀ (ts : List TaskObj) (st : St), (∀ t ∈ ts, t.task_type ≠ TaskType.voice_command) →
      ((runTasks env st ts).2.metrics.total_tasks = st.metrics.total_tasks + ts.length)
      ∧ ((runTasks env st ts).1.countP (fun r => decide (r.status = TaskStatus.completed))
          + (runTasks env st ts).1.countP (fun r => decide (r.status = TaskStatus.failed))
          = ts.length)
      ∧ ((runTasks env st ts).2.metrics.successful_tasks = st.metrics.successful_tasks +
          (runTasks env st ts).1.countP (fun r => decide (r.status = TaskStatus.completed)))
      ∧ ((runTasks env st ts).2.metrics.failed_tasks = st.metrics.failed_tasks +
          (runTasks env st ts).1.countP (fun r => decide (r.status = TaskStatus.failed)))
      ∧ ((runTasks env st ts).2.metrics.total_latency_ms = st.metrics.total_latency_ms +
          ((runTasks env st ts).1.map
            (fun r => pyInt ((r.completed_at.getD 0 - r.started_at.getD 0) * 1000))).sum) := by
  intro ts
  induction ts with
  | nil => intro st _; simp [runTasks]
  | cons t rest ih =>
      intro st hnv
      obtain ⟨hterm, htot, hsucc, hfail, s, c, hs, hc, hlat⟩ :=
        exec_metrics_delta env st t (hnv t (by simp))
      rcases he : execute_task env st t with ⟨t1, st1, tr1⟩
      rw [he] at hterm htot hsucc hfail hs hc hlat
      simp only at hterm htot hsucc hfail hs hc hlat
      obtain ⟨ihtot, ihterm, ihsucc, ihfail, ihlat⟩ :=
        ih st1 (fun x hx => hnv x (by simp [hx]))
      rcases hr : runTasks env st1 rest with ⟨ts1, st2⟩
      rw [hr] at ihtot ihterm ihsucc ihfail ihlat
      simp only at ihtot ihterm ihsucc ihfail ihlat
      have hrun : runTasks env st (t :: rest) = (t1 :: ts1, st2) := by
        simp [runTasks, he, hr]
      rw [hrun]
      simp only [List.countP_cons, List.length_cons, List.map_cons, List.sum_cons]
      have hlat1 : pyInt ((t1.completed_at.getD 0 - t1.started_at.getD 0) * 1000) =
          pyInt ((c - s) * 1000) := by
        rw [hs, hc]
        rfl
      rcases hterm with hco | hfa
      · refine ⟨by omega, ?_, ?_, ?_, ?_⟩
        · simp [hco]
          omega
        · simp [hco] at hsucc ⊢
          omega
        · simp [hco] at hfail ⊢
          omega
        · rw [hlat1]
          omega
      · have hnc : ¬ (t1.status = TaskStatus.completed) := by
          rw [hfa]
          decide
        refine ⟨by omega, ?_, ?_, ?_, ?_⟩
        · simp [hfa, hnc]
          omega
        · simp [hnc] at hsucc ⊢
          omega
        · simp [hnc, hfa] at hfail ⊢
          omega
        · rw [hlat1]
          omega

/-! ### Claim C2: metrics accounting -/

/-- C2 (amended): over any run of non-voice tasks starting from zeroed
counters, every `execute_task` call adds exactly one total task, exactly
one of successful/failed, and the task's own latency; `get_metrics` then
reports `success_rate = S/N` exactly and `avg_latency_ms` equal to the
exact mean latency rounded to 2 decimal places (`round(·, 2)`), both 0
when N = 0 without a division error.  (A voice-command task executes and
counts a second, derived task; see the voice-command claim.) -/
theorem metrics_accounting_spec (env : Env) (st : St) (ts : List TaskObj)
    (hnv : ∀ t ∈ ts, t.task_type ≠ TaskType.voice_command)
    (hm0 : st.metrics = ⟨0, 0, 0, 0⟩) :
    ((runTasks env st ts).1.countP (fun r => decide (r.status = TaskStatus.completed))
      + (runTasks env st ts).1.countP (fun r => decide (r.status = TaskStatus.failed))
      = ts.length)
    ∧ (runTasks env st ts).2.metrics.total_tasks = ts.length
    ∧ (runTasks env st ts).2.metrics.successful_tasks =
        (runTasks env st ts).1.countP (fun r => decide (r.status = TaskStatus.completed))
    ∧ (runTasks env st ts).2.metrics.failed_tasks =
        (runTasks env st ts).1.countP (fun r => decide (r.status = TaskStatus.failed))
    ∧ (runTasks env st ts).2.metrics.total_latency_ms =
        ((runTasks env st ts).1.map
          (fun r => pyInt ((r.completed_at.getD 0 - r.started_at.getD 0) * 1000))).sum
    ∧ (ts.length = 0 →
        (get_metrics (runTasks env st ts).2.metrics).success_rate = 0
        ∧ (get_metrics (runTasks env st ts).2.metrics).avg_latency_ms = 0)
    ∧ (0 < ts.length →
        (get_metrics (runTasks env st ts).2.metrics).success_rate =
          (((runTasks env st ts).1.countP
              (fun r => decide (r.status = TaskStatus.completed)) : ℚ))
            / (ts.length : ℚ)
        ∧ (get_metrics (runTasks env st ts).2.metrics).avg_latency_ms =
          round2 (((((runTasks env st ts).1.map
              (fun r => pyInt ((r.completed_at.getD 0 - r.started_at.getD 0) * 1000))).sum : ℤ) : ℚ)
            / (ts.length : ℚ))) := by
  obtain ⟨h1, h2, h3, h4, h5⟩ := runTasks_metrics env ts st hnv
  rw [hm0] at h1 h3 h4 h5
  simp only [Nat.zero_add, zero_add] at h1 h3 h4 h5
  refine ⟨h2, h1, h3, h4, h5, ?_, ?_⟩
  · intro hlen
    rw [get_metrics]
    simp only [h1, hlen]
    norm_num [round2, roundHalfEven]
  · intro hlen
    rw [get_metrics]
    simp only [h1, h3, h5]
    constructor
    · simp [hlen]
    · simp [hlen]

/-! ### Claim C1: terminal task shape -/

theorem finishTask_terminal (t1 : TaskObj) (now0 : ℚ) (res : Except Err Val) (st2 : St)
    (tr : List AEvent) (hres : t1.result = Val.none) (herr : t1.error = Option.none) :
    ((finishTask t1 now0 (res, st2, tr)).1.status = TaskStatus.completed
      ∨ (finishTask t1 now0 (res, st2, tr)).1.status = TaskStatus.failed)
    ∧ ((finishTask t1 now0 (res, st2, tr)).1.error.isSome ↔
        (finishTask t1 now0 (res, st2, tr)).1.status = TaskStatus.failed)
    ∧ ((finishTask t1 now0 (res, st2, tr)).1.status = TaskStatus.failed →
        (finishTask t1 now0 (res, st2, tr)).1.result = Val.none)
    ∧ (∀ v, res = Except.ok v →
        (finishTask t1 now0 (res, st2, tr)).1.result = v
        ∧ (finishTask t1 now0 (res, st2, tr)).1.status = TaskStatus.completed)
    ∧ (∀ e, res = Except.error e →
        (finishTask t1 now0 (res, st2, tr)).1.result = Val.none
        ∧ (finishTask t1 now0 (res, st2, tr)).1.status = TaskStatus.failed) := by
  rw [finishTask_eq]
  rcases res with e | v
  · refine ⟨Or.inr rfl, by simp, fun _ => by simpa using hres, ?_, ?_⟩
    · intro v hv
      exact absurd hv (by simp)
    · intro e2 he2
      obtain rfl := (by simpa using he2 : e = e2)
      exact ⟨by simpa using hres, rfl⟩
  · refine ⟨Or.inl rfl, by simp [herr], fun hco => absurd hco (by simp), ?_, ?_⟩
    · intro v2 hv
      obtain rfl := (by simpa using hv : v = v2)
      exact ⟨rfl, rfl⟩
    · intro e he
      exact absurd he (by simp)

theorem retryLoop_ok_nonNone (env : Env) (n m : String) (meth : AgentMethod) (kw : Payload)
    (hnn : ∀ (kw2 : Payload) (i : Nat) (v : Val), meth kw2 i = Except.ok v → v ≠ Val.none) :
    ∀ (rem attempt : Nat) (st : St) (v : Val),
      attempt + rem = env.settings.retry_max_attempts → 1 ≤ rem →
      (retryLoop env n m meth kw st attempt rem).1 = Except.ok v → v ≠ Val.none := by
  intro rem
  induction rem with
  | zero => intro attempt st v hsum hone; omega
  | succ r ih =>
      intro attempt st v hsum _ heq
      rcases hm : meth kw attempt with e | v0
      · by_cases hc : attempt < env.settings.retry_max_attempts - 1
        · rw [retryLoop_step_err_wait env n m meth kw st attempt r e hm hc] at heq
          exact ih (attempt + 1) st v (by omega) (by omega) heq
        · rw [retryLoop_step_err_last env n m meth kw st attempt r e hm hc] at heq
          exact absurd heq (by simp)
      · rw [retryLoop_step_ok env n m meth kw st attempt r v0 hm] at heq
        have hv : v0 = v := by simpa using heq
        subst hv
        exact hnn kw attempt v0 hm

theorem execute_agent_ok_nonNone (env : Env) (st : St) (n m : String) (kw : Payload)
    (v : Val) (hnn : NonNoneAgents env) (hmax : 1 ≤ env.settings.retry_max_attempts) :
    (execute_agent env st n m kw).1 = Except.ok v → v ≠ Val.none := by
  intro h
  unfold execute_agent at h
  rcases hso : stIsOpen st n with ⟨b, st1⟩
  rw [hso] at h
  try simp only [] at h
  rcases b
  · simp only [Bool.false_eq_true, if_false] at h
    rcases ha : dget env.agents n with _ | ag
    · rw [ha] at h
      simp at h
    · rw [ha] at h
      try simp only [] at h
      rcases hg : ag m with _ | meth
      · rw [hg] at h
        simp at h
      · rw [hg] at h
        try simp only [] at h
        exact retryLoop_ok_nonNone env n m meth kw
          (fun kw2 i v2 hv => hnn n m ag meth kw2 i v2 ha hg hv)
          env.settings.retry_max_attempts 0 st1 v (by omega) hmax h
  · simp at h

theorem handle_repo_ingest_ok_dict (env : Env) (st : St) (t : TaskObj) (v : Val) :
    (handle_repo_ingest env st t).1 = Except.ok v → ∃ es, v = Val.dict es := by
  intro h
  unfold handle_repo_ingest at h
  simp only [] at h
  rcases h1 : repoStep1 env st (pget t.payload "repo_url")
      (pgetD t.payload "branch" (Val.str "main")) [] with ⟨r1, st1, tr1⟩
  rw [h1] at h
  rcases r1 with e | results1
  · simp at h
  · simp only [] at h
    rcases h2 : repoStep2 env st1 results1 with ⟨r2, st2, tr2⟩
    rw [h2] at h
    rcases r2 with e | results2
    · simp at h
    · simp only [] at h
      rcases h3 : repoStep3 env st2 results2 with ⟨r3, st3, tr3⟩
      rw [h3] at h
      rcases r3 with e | results3
      · simp at h
      · simp only [] at h
        rcases h4 : repoStep4 env st3 (pget t.payload "repo_url") results3 with ⟨r4, st4, tr4⟩
        rw [h4] at h
        rcases r4 with e | results4
        · simp at h
        · simp only [] at h
          exact ⟨_, (by simpa using h.symm)⟩

theorem handle_user_query_ok_nonNone (env : Env) (st : St) (t : TaskObj) (v : Val)
    (hnn : NonNoneAgents env) (hmax : 1 ≤ env.settings.retry_max_attempts) :
    (handle_user_query env st t).1 = Except.ok v → v ≠ Val.none := by
  intro h
  unfold handle_user_query at h
  try simp only [] at h
  rcases hreg : (dget env.agents "qa").isNone with _ | _
  · rw [hreg] at h
    simp only [Bool.false_eq_true, if_false] at h
    rcases he : execute_agent env (tick st).2 "qa" "answer_question"
        [("question", pget t.payload "query"), ("repo_id", pget t.payload "repo_id")]
      with ⟨r, st2, tr⟩
    rw [he] at h
    try simp only [] at h
    rcases r with e | w
    · simp at h
    · have hw : w = v := by simpa using h
      subst hw
      refine execute_agent_ok_nonNone env (tick st).2 "qa" "answer_question"
        [("question", pget t.payload "query"), ("repo_id", pget t.payload "repo_id")]
        w hnn hmax ?_
      rw [he]
  · rw [hreg] at h
    simp at h

theorem handle_pr_webhook_ok_nonNone (env : Env) (st : St) (t : TaskObj) (v : Val)
    (hnn : NonNoneAgents env) (hmax : 1 ≤ env.settings.retry_max_attempts) :
    (handle_pr_webhook env st t).1 = Except.ok v → v ≠ Val.none := by
  intro h
  unfold handle_pr_webhook at h
  rcases hreg : (dget env.agents "change").isNone with _ | _
  · rw [hreg] at h
    simp only [Bool.false_eq_true, if_false] at h
    exact execute_agent_ok_nonNone env st "change" "analyze_pr"
      [("pr_number", pget t.payload "pr_number"), ("repo_url", pget t.payload "repo_url")]
      v hnn hmax h
  · rw [hreg] at h
    simp at h

theorem handle_generate_docs_ok_nonNone (env : Env) (st : St) (t : TaskObj) (v : Val)
    (hnn : NonNoneAgents env) (hmax : 1 ≤ env.settings.retry_max_attempts) :
    (handle_generate_docs env st t).1 = Except.ok v → v ≠ Val.none := by
  intro h
  unfold handle_generate_docs at h
  simp only [] at h
  rcases hreg : (dget env.agents "summarizer").isNone with _ | _
  · rw [hreg] at h
    simp only [Bool.false_eq_true, if_false] at h
    exact execute_agent_ok_nonNone env st "summarizer" "generate_docs"
      [("doc_type", pgetD t.payload "doc_type" (Val.str "onboarding")),
       ("repo_id", pget t.payload "repo_id")] v hnn hmax h
  · rw [hreg] at h
    simp at h

/-- C1 (amended): for every freshly-created task (result and error at
their defaults), after `execute_task` the status is COMPLETED or FAILED
(never PENDING, RUNNING or TIMEOUT), the error string is populated
exactly when the status is FAILED, a FAILED task has no result, and —
provided every registered agent method returns a non-None value on
success and at least one retry attempt is configured — the result is
populated exactly when the status is COMPLETED.  (Without that proviso a
handler can legitimately hand back Python `None` as a successful result,
see the counterexample.) -/
theorem task_terminal_spec (env : Env) (st : St) (t : TaskObj)
    (hres : t.result = Val.none) (herr : t.error = Option.none) :
    ((execute_task env st t).1.status = TaskStatus.completed
      ∨ (execute_task env st t).1.status = TaskStatus.failed)
    ∧ ((execute_task env st t).1.error.isSome ↔
        (execute_task env st t).1.status = TaskStatus.failed)
    ∧ ((execute_task env st t).1.status = TaskStatus.failed →
        (execute_task env st t).1.result = Val.none)
    ∧ (NonNoneAgents env → 1 ≤ env.settings.retry_max_attempts →
        ((execute_task env st t).1.result ≠ Val.none ↔
          (execute_task env st t).1.status = TaskStatus.completed)) := by
  rcases ht : t.task_type
  case repo_ingest =>
    rw [execute_task_eq_repo env st t ht]
    rcases ho : handle_repo_ingest env (tick st).2
        { t with status := TaskStatus.running, started_at := some (tick st).1 }
      with ⟨res, st2, tr⟩
    obtain ⟨hterm, herr2, hfail2, hok2, herr3⟩ :=
      finishTask_terminal { t with status := TaskStatus.running, started_at := some (tick st).1 }
        (tick st).1 res st2 tr (by simpa using hres) (by simpa using herr)
    refine ⟨hterm, herr2, hfail2, fun _ _ => ?_⟩
    rcases res with e | v
    · obtain ⟨hr0, hs0⟩ := herr3 e rfl
      rw [hr0, hs0]
      simp
    · obtain ⟨hr0, hs0⟩ := hok2 v rfl
      rw [hr0, hs0]
      obtain ⟨es, rfl⟩ := handle_repo_ingest_ok_dict env (tick st).2 _ v (by rw [ho])
      simp
  case user_query =>
    rw [execute_task_eq_query env st t ht]
    rcases ho : handle_user_query env (tick st).2
        { t with status := TaskStatus.running, started_at := some (tick st).1 }
      with ⟨res, st2, tr⟩
    obtain ⟨hterm, herr2, hfail2, hok2, herr3⟩ :=
      finishTask_terminal { t with status := TaskStatus.running, started_at := some (tick st).1 }
        (tick st).1 res st2 tr (by simpa using hres) (by simpa using herr)
    refine ⟨hterm, herr2, hfail2, fun hnn hmax => ?_⟩
    rcases res with e | v
    · obtain ⟨hr0, hs0⟩ := herr3 e rfl
      rw [hr0, hs0]
      simp
    · obtain ⟨hr0, hs0⟩ := hok2 v rfl
      rw [hr0, hs0]
      have hv := handle_user_query_ok_nonNone env (tick st).2 _ v hnn hmax (by rw [ho])
      simp [hv]
  case pr_webhook =>
    rw [execute_task_eq_webhook env st t ht]
    rcases ho : handle_pr_webhook env (tick st).2
        { t with status := TaskStatus.running, started_at := some (tick st).1 }
      with ⟨res, st2, tr⟩
    obtain ⟨hterm, herr2, hfail2, hok2, herr3⟩ :=
      finishTask_terminal { t with status := TaskStatus.running, started_at := some (tick st).1 }
        (tick st).1 res st2 tr (by simpa using hres) (by simpa using herr)
    refine ⟨hterm, herr2, hfail2, fun hnn hmax => ?_⟩
    rcases res with e | v
    · obtain ⟨hr0, hs0⟩ := herr3 e rfl
      rw [hr0, hs0]
      simp
    · obtain ⟨hr0, hs0⟩ := hok2 v rfl
      rw [hr0, hs0]
      have hv := handle_pr_webhook_ok_nonNone env (tick st).2 _ v hnn hmax (by rw [ho])
      simp [hv]
  case generate_docs =>
    rw [execute_task_eq_docs env st t ht]
    rcases ho : handle_generate_docs env (tick st).2
        { t with status := TaskStatus.running, started_at := some (tick st).1 }
      with ⟨res, st2, tr⟩
    obtain ⟨hterm, herr2, hfail2, hok2, herr3⟩ :=
      finishTask_terminal { t with status := TaskStatus.running, started_at := some (tick st).1 }
        (tick st).1 res st2 tr (by simpa using hres) (by simpa using herr)
    refine ⟨hterm, herr2, hfail2, fun hnn hmax => ?_⟩
    rcases res with e | v
    · obtain ⟨hr0, hs0⟩ := herr3 e rfl
      rw [hr0, hs0]
      simp
    · obtain ⟨hr0, hs0⟩ := hok2 v rfl
      rw [hr0, hs0]
      have hv := handle_generate_docs_ok_nonNone env (tick st).2 _ v hnn hmax (by rw [ho])
      simp [hv]
  case voice_command =>
    rw [execute_task_eq_voice env st t ht]
    rcases htr : env.transcribe (pget t.payload "audio_path") with msg | trans
    all_goals simp only []
    · obtain ⟨hterm, herr2, hfail2, hok2, herr3⟩ :=
        finishTask_terminal
          { t with status := TaskStatus.running, started_at := some (tick st).1 }
          (tick st).1 (Except.error (Err.transcribeError msg)) (tick st).2 []
          (by simpa using hres) (by simpa using herr)
      refine ⟨hterm, herr2, hfail2, fun _ _ => ?_⟩
      obtain ⟨hr0, hs0⟩ := herr3 (Err.transcribeError msg) rfl
      rw [hr0, hs0]
      simp
    · by_cases hkw : (["index", "ingest", "add"].any
          fun w => containsSub trans.toLower w) = true
      · rw [if_pos hkw]
        obtain ⟨hterm, herr2, hfail2, hok2, herr3⟩ :=
          finishTask_terminal
            { t with status := TaskStatus.running, started_at := some (tick st).1 }
            (tick st).1
            (Except.ok (Val.taskV (execute_task env (tick (tick st).2).2
              (voiceDerivedIngest
                { t with status := TaskStatus.running, started_at := some (tick st).1 }
                (tick (tick st).2).1)).1))
            ((execute_task env (tick (tick st).2).2
              (voiceDerivedIngest
                { t with status := TaskStatus.running, started_at := some (tick st).1 }
                (tick (tick st).2).1)).2.1)
            ((execute_task env (tick (tick st).2).2
              (voiceDerivedIngest
                { t with status := TaskStatus.running, started_at := some (tick st).1 }
                (tick (tick st).2).1)).2.2)
            (by simpa using hres) (by simpa using herr)
        refine ⟨hterm, herr2, hfail2, fun _ _ => ?_⟩
        obtain ⟨hr0, hs0⟩ := hok2 _ rfl
        rw [hr0, hs0]
        simp
      · rw [if_neg hkw]
        obtain ⟨hterm, herr2, hfail2, hok2, herr3⟩ :=
          finishTask_terminal
            { t with status := TaskStatus.running, started_at := some (tick st).1 }
            (tick st).1
            (Except.ok (Val.taskV (execute_task env (tick (tick st).2).2
              (voiceDerivedQuery
                { t with status := TaskStatus.running, started_at := some (tick st).1 }
                trans (tick (tick st).2).1)).1))
            ((execute_task env (tick (tick st).2).2
              (voiceDerivedQuery
                { t with status := TaskStatus.running, started_at := some (tick st).1 }
                trans (tick (tick st).2).1)).2.1)
            ((execute_task env (tick (tick st).2).2
              (voiceDerivedQuery
                { t with status := TaskStatus.running, started_at := some (tick st).1 }
                trans (tick (tick st).2).1)).2.2)
            (by simpa using hres) (by simpa using herr)
        refine ⟨hterm, herr2, hfail2, fun _ _ => ?_⟩
        obtain ⟨hr0, hs0⟩ := hok2 _ rfl
        rw [hr0, hs0]
        simp

/-- C1 witness at a concrete fresh USER_QUERY task with no agents. -/
theorem task_terminal_spec_witness :
    ((taskOf TaskType.user_query []).result = Val.none
    ∧ (taskOf TaskType.user_query []).error = Option.none)
    ∧ ((execute_task envEmpty (stTimes []) (taskOf TaskType.user_query [])).1.status
          = TaskStatus.completed
      ∨ (execute_task envEmpty (stTimes []) (taskOf TaskType.user_query [])).1.status
          = TaskStatus.failed) := by
  refine ⟨⟨rfl, rfl⟩, ?_⟩
  exact (task_terminal_spec envEmpty (stTimes []) (taskOf TaskType.user_query []) rfl rfl).1

/-- C1 counterexample: a "qa" agent that successfully returns Python
`None` yields a COMPLETED task whose result is unpopulated, so "populated
result iff COMPLETED" fails as stated. -/
theorem task_result_populated_cex :
    (execute_task envQaNone (stTimes [])
        (taskOf TaskType.user_query [("query", Val.str "q")])).1.status = TaskStatus.completed
    ∧ (execute_task envQaNone (stTimes [])
        (taskOf TaskType.user_query [("query", Val.str "q")])).1.result = Val.none := by
  rw [execute_task_eq_query envQaNone (stTimes [])
    (taskOf TaskType.user_query [("query", Val.str "q")]) rfl]
  exact ⟨rfl, rfl⟩

theorem execute_task_noqa (env : Env) (st : St) (t : TaskObj)
    (hq : (dget env.agents "qa").isNone = true) (ht : t.task_type = TaskType.user_query) :
    execute_task env st t =
      ({ t with
            status := TaskStatus.failed,
            started_at := some (st.times.headD 0),
            completed_at := some (st.times.tail.headD 0),
            error := some "QA agent not registered" },
       { st with
           times := st.times.tail.tail,
           metrics := ⟨st.metrics.total_tasks + 1, st.metrics.successful_tasks,
                       st.metrics.failed_tasks + 1,
                       st.metrics.total_latency_ms +
                         pyInt ((st.times.tail.headD 0 - st.times.headD 0) * 1000)⟩ },
       []) := by
  rw [execute_task_eq_query env st t ht]
  have hh : handle_user_query env (tick st).2
      { t with status := TaskStatus.running, started_at := some (tick st).1 } =
      (Except.error Err.qaNotRegistered, (tick st).2, []) := by
    unfold handle_user_query
    rw [hq]
    simp
  rw [hh, finishTask_eq]
  simp [tick_eq, Err.toMsg]

/-- C2 witness: one failed task from zeroed counters. -/
theorem metrics_accounting_spec_witness :
    ((∀ t ∈ [taskOf TaskType.user_query []], t.task_type ≠ TaskType.voice_command)
    ∧ (stTimes []).metrics = ⟨0, 0, 0, 0⟩)
    ∧ (runTasks envEmpty (stTimes []) [taskOf TaskType.user_query []]).2.metrics.total_tasks
        = [taskOf TaskType.user_query []].length := by
  have hnv : ∀ t ∈ [taskOf TaskType.user_query []], t.task_type ≠ TaskType.voice_command := by
    intro t htm
    simp only [List.mem_singleton] at htm
    subst htm
    decide
  exact ⟨⟨hnv, rfl⟩, (metrics_accounting_spec envEmpty (stTimes []) _ hnv rfl).2.1⟩

/-- C2 counterexample: three tasks with latencies 1ms, 0ms, 0ms give
`avg_latency_ms = 0.33` (the exact mean 1/3 rounded to 2 decimals), so
`avg_latency_ms == sum(latencies)/N` fails as stated. -/
theorem metrics_avg_rounding_cex :
    (runTasks envEmpty (stTimes [0, 1/1000, 0, 0, 0, 0])
        [taskOf TaskType.user_query [], taskOf TaskType.user_query [],
         taskOf TaskType.user_query []]).2.metrics.total_tasks = 3
    ∧ (runTasks envEmpty (stTimes [0, 1/1000, 0, 0, 0, 0])
        [taskOf TaskType.user_query [], taskOf TaskType.user_query [],
         taskOf TaskType.user_query []]).2.metrics.total_latency_ms = 1
    ∧ (get_metrics (runTasks envEmpty (stTimes [0, 1/1000, 0, 0, 0, 0])
        [taskOf TaskType.user_query [], taskOf TaskType.user_query [],
         taskOf TaskType.user_query []]).2.metrics).avg_latency_ms = 33/100
    ∧ ((33 : ℚ)/100 ≠ (1 : ℚ)/3) := by
  have e1 : execute_task envEmpty (stTimes [0, 1/1000, 0, 0, 0, 0])
      (taskOf TaskType.user_query []) =
      ({ taskOf TaskType.user_query [] with
            status := TaskStatus.failed,
            started_at := some 0,
            completed_at := some (1/1000),
            error := some "QA agent not registered" },
       ⟨⟨5, 60, [], []⟩, ⟨1, 0, 1, 1⟩, [0, 0, 0, 0]⟩, []) := by
    rw [execute_task_noqa envEmpty (stTimes [0, 1/1000, 0, 0, 0, 0])
      (taskOf TaskType.user_query []) rfl rfl]
    norm_num [stTimes, pyInt]
  have e2 : execute_task envEmpty (⟨⟨5, 60, [], []⟩, ⟨1, 0, 1, 1⟩, [0, 0, 0, 0]⟩ : St)
      (taskOf TaskType.user_query []) =
      ({ taskOf TaskType.user_query [] with
            status := TaskStatus.failed,
            started_at := some 0,
            completed_at := some 0,
            error := some "QA agent not registered" },
       ⟨⟨5, 60, [], []⟩, ⟨2, 0, 2, 1⟩, [0, 0]⟩, []) := by
    rw [execute_task_noqa envEmpty (⟨⟨5, 60, [], []⟩, ⟨1, 0, 1, 1⟩, [0, 0, 0, 0]⟩ : St)
      (taskOf TaskType.user_query []) rfl rfl]
    norm_num [pyInt]
  have e3 : execute_task envEmpty (⟨⟨5, 60, [], []⟩, ⟨2, 0, 2, 1⟩, [0, 0]⟩ : St)
      (taskOf TaskType.user_query []) =
      ({ taskOf TaskType.user_query [] with
            status := TaskStatus.failed,
            started_at := some 0,
            completed_at := some 0,
            error := some "QA agent not registered" },
       ⟨⟨5, 60, [], []⟩, ⟨3, 0, 3, 1⟩, []⟩, []) := by
    rw [execute_task_noqa envEmpty (⟨⟨5, 60, [], []⟩, ⟨2, 0, 2, 1⟩, [0, 0]⟩ : St)
      (taskOf TaskType.user_query []) rfl rfl]
    norm_num [pyInt]
  have hrun : (runTasks envEmpty (stTimes [0, 1/1000, 0, 0, 0, 0])
      [taskOf TaskType.user_query [], taskOf TaskType.user_query [],
       taskOf TaskType.user_query []]).2 =
      (⟨⟨5, 60, [], []⟩, ⟨3, 0, 3, 1⟩, []⟩ : St) := by
    simp only [runTasks]
    rw [e1]
    simp only []
    rw [e2]
    simp only []
    rw [e3]
  rw [hrun]
  refine ⟨rfl, rfl, ?_, by norm_num⟩
  norm_num [get_metrics, round2, roundHalfEven]

/-! ### Claim C10: voice-command wrapping -/

/-- C10: when transcription succeeds, a VOICE_COMMAND task always ends
COMPLETED with the executed derived task object as its result and its
error field untouched, even when the derived task FAILED (the derived
failure is never propagated), and the derived task is counted in the
metrics separately from the outer task (total_tasks rises by 2, the
outer task contributing one success). -/
theorem voice_command_wraps_derived (env : Env) (st : St) (t : TaskObj) (trans : String)
    (ht : t.task_type = TaskType.voice_command)
    (htr : env.transcribe (pget t.payload "audio_path") = Except.ok trans) :
    ∃ dt s c,
      (execute_task env st t).1 =
        { t with status := TaskStatus.completed, started_at := some s,
                 completed_at := some c, result := Val.taskV dt }
      ∧ (dt.status = TaskStatus.completed ∨ dt.status = TaskStatus.failed)
      ∧ (execute_task env st t).2.1.metrics.total_tasks = st.metrics.total_tasks + 2
      ∧ ((execute_task env st t).2.1.metrics.successful_tasks
          + (execute_task env st t).2.1.metrics.failed_tasks
          = st.metrics.successful_tasks + st.metrics.failed_tasks + 2)
      ∧ (dt.status = TaskStatus.failed →
          (execute_task env st t).2.1.metrics.successful_tasks
            = st.metrics.successful_tasks + 1
          ∧ (execute_task env st t).2.1.metrics.failed_tasks
            = st.metrics.failed_tasks + 1)
      ∧ (dt.status = TaskStatus.completed →
          (execute_task env st t).2.1.metrics.successful_tasks
            = st.metrics.successful_tasks + 2
          ∧ (execute_task env st t).2.1.metrics.failed_tasks = st.metrics.failed_tasks) := by
  have htick2 : (tick (tick st).2).2.metrics = st.metrics := by
    simp [tick_eq]
  rw [execute_task_eq_voice env st t ht, htr]
  simp only []
  by_cases hkw : (["index", "ingest", "add"].any
      fun w => containsSub trans.toLower w) = true
  · rw [if_pos hkw]
    obtain ⟨hterm, htot, hsucc, hfail, _⟩ :=
      exec_metrics_delta env (tick (tick st).2).2
        (voiceDerivedIngest
          { t with status := TaskStatus.running, started_at := some (tick st).1 }
          (tick (tick st).2).1)
        (by simp [voiceDerivedIngest])
    rw [htick2] at htot hsucc hfail
    rw [finishTask_eq]
    refine ⟨(execute_task env (tick (tick st).2).2
        (voiceDerivedIngest
          { t with status := TaskStatus.running, started_at := some (tick st).1 }
          (tick (tick st).2).1)).1,
      (tick st).1,
      (execute_task env (tick (tick st).2).2
        (voiceDerivedIngest
          { t with status := TaskStatus.running, started_at := some (tick st).1 }
          (tick (tick st).2).1)).2.1.times.headD 0,
      rfl, hterm, by simpa using htot, ?_, ?_, ?_⟩
    · by_cases hdt : (execute_task env (tick (tick st).2).2
          (voiceDerivedIngest
            { t with status := TaskStatus.running, started_at := some (tick st).1 }
            (tick (tick st).2).1)).1.status = TaskStatus.completed
      · rw [if_pos hdt] at hsucc
        rw [if_pos hdt] at hfail
        simp only []
        omega
      · rw [if_neg hdt] at hsucc
        rw [if_neg hdt] at hfail
        simp only []
        omega
    · intro hdf
      have hdt : ¬ (execute_task env (tick (tick st).2).2
          (voiceDerivedIngest
            { t with status := TaskStatus.running, started_at := some (tick st).1 }
            (tick (tick st).2).1)).1.status = TaskStatus.completed := by
        rw [hdf]
        decide
      rw [if_neg hdt] at hsucc
      rw [if_neg hdt] at hfail
      constructor
      · simpa using hsucc
      · simpa using hfail
    · intro hdc
      rw [if_pos hdc] at hsucc
      rw [if_pos hdc] at hfail
      constructor
      · simp only []
        omega
      · simpa using hfail
  · rw [if_neg hkw]
    obtain ⟨hterm, htot, hsucc, hfail, _⟩ :=
      exec_metrics_delta env (tick (tick st).2).2
        (voiceDerivedQuery
          { t with status := TaskStatus.running, started_at := some (tick st).1 }
          trans (tick (tick st).2).1)
        (by simp [voiceDerivedQuery])
    rw [htick2] at htot hsucc hfail
    rw [finishTask_eq]
    refine ⟨(execute_task env (tick (tick st).2).2
        (voiceDerivedQuery
          { t with status := TaskStatus.running, started_at := some (tick st).1 }
          trans (tick (tick st).2).1)).1,
      (tick st).1,
      (execute_task env (tick (tick st).2).2
        (voiceDerivedQuery
          { t with status := TaskStatus.running, started_at := some (tick st).1 }
          trans (tick (tick st).2).1)).2.1.times.headD 0,
      rfl, hterm, by simpa using htot, ?_, ?_, ?_⟩
    · by_cases hdt : (execute_task env (tick (tick st).2).2
          (voiceDerivedQuery
            { t with status := TaskStatus.running, started_at := some (tick st).1 }
            trans (tick (tick st).2).1)).1.status = TaskStatus.completed
      · rw [if_pos hdt] at hsucc
        rw [if_pos hdt] at hfail
        simp only []
        omega
      · rw [if_neg hdt] at hsucc
        rw [if_neg hdt] at hfail
        simp only []
        omega
    · intro hdf
      have hdt : ¬ (execute_task env (tick (tick st).2).2
          (voiceDerivedQuery
            { t with status := TaskStatus.running, started_at := some (tick st).1 }
            trans (tick (tick st).2).1)).1.status = TaskStatus.completed := by
        rw [hdf]
        decide
      rw [if_neg hdt] at hsucc
      rw [if_neg hdt] at hfail
      constructor
      · simpa using hsucc
      · simpa using hfail
    · intro hdc
      rw [if_pos hdc] at hsucc
      rw [if_pos hdc] at hfail
      constructor
      · simp only []
        omega
      · simpa using hfail

/-- C10 witness: with no agents registered the derived USER_QUERY task
fails, yet the voice task completes and both are counted. -/
theorem voice_command_wraps_derived_witness :
    ((taskOf TaskType.voice_command []).task_type = TaskType.voice_command
    ∧ envVoiceQuery.transcribe (pget (taskOf TaskType.voice_command []).payload "audio_path")
        = Except.ok "hello")
    ∧ ∃ dt s c,
      (execute_task envVoiceQuery (stTimes []) (taskOf TaskType.voice_command [])).1 =
        { taskOf TaskType.voice_command [] with
            status := TaskStatus.completed, started_at := some s,
            completed_at := some c, result := Val.taskV dt }
      ∧ (dt.status = TaskStatus.completed ∨ dt.status = TaskStatus.failed)
      ∧ (execute_task envVoiceQuery (stTimes [])
          (taskOf TaskType.voice_command [])).2.1.metrics.total_tasks
          = (stTimes []).metrics.total_tasks + 2
      ∧ ((execute_task envVoiceQuery (stTimes [])
            (taskOf TaskType.voice_command [])).2.1.metrics.successful_tasks
          + (execute_task envVoiceQuery (stTimes [])
              (taskOf TaskType.voice_command [])).2.1.metrics.failed_tasks
          = (stTimes []).metrics.successful_tasks + (stTimes []).metrics.failed_tasks + 2)
      ∧ (dt.status = TaskStatus.failed →
          (execute_task envVoiceQuery (stTimes [])
            (taskOf TaskType.voice_command [])).2.1.metrics.successful_tasks
            = (stTimes []).metrics.successful_tasks + 1
          ∧ (execute_task envVoiceQuery (stTimes [])
              (taskOf TaskType.voice_command [])).2.1.metrics.failed_tasks
            = (stTimes []).metrics.failed_tasks + 1)
      ∧ (dt.status = TaskStatus.completed →
          (execute_task envVoiceQuery (stTimes [])
            (taskOf TaskType.voice_command [])).2.1.metrics.successful_tasks
            = (stTimes []).metrics.successful_tasks + 2
          ∧ (execute_task envVoiceQuery (stTimes [])
              (taskOf TaskType.voice_command [])).2.1.metrics.failed_tasks
            = (stTimes []).metrics.failed_tasks) := by
  exact ⟨⟨rfl, rfl⟩,
    voice_command_wraps_derived envVoiceQuery (stTimes [])
      (taskOf TaskType.voice_command []) "hello" rfl rfl⟩

/-! ### Claim C8: the parser fan-out stage -/

theorem fanOutParse_length (env : Env) :
    ∀ (fs : List Val) (st : St), (fanOutParse env st fs).1.length = fs.length := by
  intro fs
  induction fs with
  | nil => intro st; rfl
  | cons f rest ih =>
      intro st
      simp only [fanOutParse]
      rcases he : execute_agent env st "parser" "parse_file" [("file_path", f)] with ⟨r, st1, tr⟩
      simp [ih st1]

theorem countOk_add_countErr (rs : List (Except Err Val)) :
    countOk rs + countErr rs = rs.length := by
  induction rs with
  | nil => rfl
  | cons r rest ih =>
      rcases r with e | v <;> simp [countOk, countErr] at ih ⊢ <;> omega

/-- C8 (amended): when the parser is registered and the intake stage
produced a (truthy) dict whose "files" key holds a list, the fan-out
stage issues one parser call per file among the FIRST TEN files only
(`files[:10]`, a hard-coded demo cap), absorbs the k individual failures
into `{parsed_files: min(N,10) − k, errors: k}`, and returns
successfully — no fan-out failure reaches the handler's error, so the
pipeline proceeds to the indexer stage. -/
theorem fanout_stage_spec (env : Env) (st : St) (results : Payload) (d : Payload)
    (fs : List Val)
    (hreg : (dget env.agents "parser").isSome = true)
    (hintake : pget results "intake" = Val.dict d)
    (hne : d ≠ [])
    (hfiles : dget d "files" = some (Val.listV fs)) :
    repoStep2 env st results =
      (Except.ok (dset results "parser" (Val.dict
         [("parsed_files", Val.num (countOk (fanOutParse env st (fs.take 10)).1)),
          ("errors", Val.num (countErr (fanOutParse env st (fs.take 10)).1))])),
       (fanOutParse env st (fs.take 10)).2.1,
       (fanOutParse env st (fs.take 10)).2.2)
    ∧ (fanOutParse env st (fs.take 10)).1.length = min fs.length 10
    ∧ countOk (fanOutParse env st (fs.take 10)).1
        + countErr (fanOutParse env st (fs.take 10)).1 = min fs.length 10 := by
  have hlen : (fanOutParse env st (fs.take 10)).1.length = min fs.length 10 := by
    rw [fanOutParse_length]
    simp [Nat.min_comm]
  refine ⟨?_, hlen, by rw [countOk_add_countErr]; exact hlen⟩
  unfold repoStep2
  have hcond : ((dget env.agents "parser").isSome && (pget results "intake").truthy) = true := by
    rw [hreg, hintake]
    simp [Val.truthy, hne]
  rw [hcond]
  simp only [if_true]
  rw [hintake]
  simp only [Val.pyGet, pgetD, hfiles, Option.getD_some]
  simp only [Val.pySliceTen]

/-- C8 witness: eleven files, parser succeeding on each. -/
theorem fanout_stage_spec_witness :
    ((dget envIntakeParser.agents "parser").isSome = true
    ∧ pget [("intake", Val.dict
        [("files", Val.listV ((List.range 11).map (fun i => Val.str (toString i))))])]
        "intake" = Val.dict
        [("files", Val.listV ((List.range 11).map (fun i => Val.str (toString i))))]
    ∧ ([("files", Val.listV ((List.range 11).map (fun i => Val.str (toString i))))]
        : Payload) ≠ []
    ∧ dget [("files", Val.listV ((List.range 11).map (fun i => Val.str (toString i))))]
        "files" = some (Val.listV ((List.range 11).map (fun i => Val.str (toString i)))))
    ∧ (fanOutParse envIntakeParser (stTimes [])
        (((List.range 11).map (fun i => Val.str (toString i))).take 10)).1.length
        = min ((List.range 11).map (fun i => Val.str (toString i))).length 10 := by
  refine ⟨⟨rfl, rfl, by simp, rfl⟩, ?_⟩
  exact (fanout_stage_spec envIntakeParser (stTimes [])
    [("intake", Val.dict
      [("files", Val.listV ((List.range 11).map (fun i => Val.str (toString i))))])]
    [("files", Val.listV ((List.range 11).map (fun i => Val.str (toString i))))]
    ((List.range 11).map (fun i => Val.str (toString i)))
    rfl rfl (by simp) rfl).2.1

/-- C8 counterexample: the intake stage returns eleven files but the
fan-out issues only ten parser calls, reporting `parsed_files = 10`
although all eleven would succeed — not `{parsed_files: N − k}` with
N = 11, k = 0 as claimed. -/
theorem fanout_caps_at_ten_cex :
    (handle_repo_ingest envIntakeParser (stTimes []) (taskOf TaskType.repo_ingest [])).1 =
      Except.ok (Val.dict
        [("status", Val.str "completed"),
         ("repo_url", Val.none),
         ("branch", Val.str "main"),
         ("results", Val.dict
           [("intake", Val.dict
             [("files", Val.listV ((List.range 11).map (fun i => Val.str (toString i))))]),
            ("parser", Val.dict
              [("parsed_files", Val.num 10), ("errors", Val.num 0)])])])
    ∧ ((List.range 11).map (fun i => Val.str (toString i))).length = 11
    ∧ (10 : ℚ) ≠ (11 : ℚ) := by
  refine ⟨?_, by simp, by norm_num⟩
  rfl

/-! ### Claim C9: stage skipping and failure propagation -/

theorem pyGet_error (v : Val) (k : String) (d : Val) (e : Err) :
    v.pyGet k d = Except.error e → e = Err.pyError "AttributeError" := by
  cases v <;> simp [Val.pyGet] <;> intro h <;> simp [h.symm]

theorem pySliceTen_error (v : Val) (e : Err) :
    v.pySliceTen = Except.error e → e = Err.pyError "TypeError" := by
  cases v <;> simp [Val.pySliceTen] <;> intro h <;> simp [h.symm]

theorem retryLoop_error_kind (env : Env) (n m : String) (meth : AgentMethod) (kw : Payload) :
    ∀ (rem : Nat) (st : St) (attempt : Nat) (e : Err),
      (retryLoop env n m meth kw st attempt rem).1 = Except.error e →
      ∃ msg, e = Err.agentError msg := by
  intro rem
  induction rem with
  | zero => intro st attempt e h; simp [retryLoop] at h
  | succ r ih =>
      intro st attempt e h
      rcases hm : meth kw attempt with e0 | v0
      · by_cases hc : attempt < env.settings.retry_max_attempts - 1
        · rw [retryLoop_step_err_wait env n m meth kw st attempt r e0 hm hc] at h
          exact ih st (attempt + 1) e h
        · rw [retryLoop_step_err_last env n m meth kw st attempt r e0 hm hc] at h
          exact ⟨e0, by simpa using h.symm⟩
      · rw [retryLoop_step_ok env n m meth kw st attempt r v0 hm] at h
        simp at h

/-- C9 (amended): the intake, indexer and summarizer stages are each
skipped — returning the accumulated results unchanged, failing nothing —
exactly when their capability is unregistered: when registered, the
stage performs its one agent call, adding its output to the results on
success and propagating the call's error on failure.  The parser stage
is skipped exactly when its capability is unregistered OR the intake
stage left no truthy "intake" entry (so a registered parser is still
skipped when intake is missing); when it runs it either performs the
capped fan-out and succeeds — absorbing individual call failures into
counts — or fails only in extracting the file list from a malformed
intake value (a dynamic-typing pyError).  When all stages succeed the
handler's value wraps the union of the stage outputs; the handler fails
exactly with the error of the first failing stage, and a registered
sequential stage's call fails only by exhausting its retries (re-raising
the last error), by an already-open circuit, or by a missing method —
not only by retry exhaustion as originally claimed. -/
theorem repo_stage_skip_spec (env : Env) (st : St) (u b : Val) (results : Payload)
    (t : TaskObj) :
    ((dget env.agents "intake").isNone = true →
      repoStep1 env st u b results = (Except.ok results, st, []))
    ∧ (∀ ag, dget env.agents "intake" = some ag →
        (∀ v st1 tr, execute_agent env st "intake" "fetch_repo"
            [("repo_url", u), ("branch", b)] = (Except.ok v, st1, tr) →
          repoStep1 env st u b results = (Except.ok (dset results "intake" v), st1, tr))
        ∧ (∀ e st1 tr, execute_agent env st "intake" "fetch_repo"
            [("repo_url", u), ("branch", b)] = (Except.error e, st1, tr) →
          repoStep1 env st u b results = (Except.error e, st1, tr)))
    ∧ ((dget env.agents "parser").isNone = true →
      repoStep2 env st results = (Except.ok results, st, []))
    ∧ ((pget results "intake").truthy = false →
      repoStep2 env st results = (Except.ok results, st, []))
    ∧ ((dget env.agents "parser").isSome = true →
        (pget results "intake").truthy = true →
        (∀ e, (pget results "intake").pyGet "files" (Val.listV []) = Except.error e →
          repoStep2 env st results = (Except.error e, st, []))
        ∧ (∀ vfiles e,
            (pget results "intake").pyGet "files" (Val.listV []) = Except.ok vfiles →
            vfiles.pySliceTen = Except.error e →
          repoStep2 env st results = (Except.error e, st, []))
        ∧ (∀ vfiles files,
            (pget results "intake").pyGet "files" (Val.listV []) = Except.ok vfiles →
            vfiles.pySliceTen = Except.ok files →
          repoStep2 env st results =
            (Except.ok (dset results "parser" (Val.dict
               [("parsed_files", Val.num (countOk (fanOutParse env st files).1)),
                ("errors", Val.num (countErr (fanOutParse env st files).1))])),
             (fanOutParse env st files).2.1, (fanOutParse env st files).2.2)))
    ∧ ((dget env.agents "chunker_indexer").isNone = true →
      repoStep3 env st results = (Except.ok results, st, []))
    ∧ (∀ ag, dget env.agents "chunker_indexer" = some ag →
        (∀ v st1 tr, execute_agent env st "chunker_indexer" "index_chunks"
            [("parsed_data", pget results "parser")] = (Except.ok v, st1, tr) →
          repoStep3 env st results = (Except.ok (dset results "indexer" v), st1, tr))
        ∧ (∀ e st1 tr, execute_agent env st "chunker_indexer" "index_chunks"
            [("parsed_data", pget results "parser")] = (Except.error e, st1, tr) →
          repoStep3 env st results = (Except.error e, st1, tr)))
    ∧ ((dget env.agents "summarizer").isNone = true →
      repoStep4 env st u results = (Except.ok results, st, []))
    ∧ (∀ ag, dget env.agents "summarizer" = some ag →
        (∀ v st1 tr, execute_agent env st "summarizer" "generate_overview"
            [("repo_url", u)] = (Except.ok v, st1, tr) →
          repoStep4 env st u results = (Except.ok (dset results "summarizer" v), st1, tr))
        ∧ (∀ e st1 tr, execute_agent env st "summarizer" "generate_overview"
            [("repo_url", u)] = (Except.error e, st1, tr) →
          repoStep4 env st u results = (Except.error e, st1, tr)))
    ∧ (∀ results1 st1 tr1 results2 st2 tr2 results3 st3 tr3 results4 st4 tr4,
        repoStep1 env st (pget t.payload "repo_url")
          (pgetD t.payload "branch" (Val.str "main")) [] = (Except.ok results1, st1, tr1) →
        repoStep2 env st1 results1 = (Except.ok results2, st2, tr2) →
        repoStep3 env st2 results2 = (Except.ok results3, st3, tr3) →
        repoStep4 env st3 (pget t.payload "repo_url") results3 =
          (Except.ok results4, st4, tr4) →
        handle_repo_ingest env st t =
          (Except.ok (Val.dict
            [("status", Val.str "completed"),
             ("repo_url", pget t.payload "repo_url"),
             ("branch", pgetD t.payload "branch" (Val.str "main")),
             ("results", Val.dict results4)]),
           st4, tr1 ++ tr2 ++ tr3 ++ tr4))
    ∧ (∀ e, (handle_repo_ingest env st t).1 = Except.error e →
        (∃ st1 tr1, (repoStep1 env st (pget t.payload "repo_url")
            (pgetD t.payload "branch" (Val.str "main")) []).1 = Except.error e
          ∧ (repoStep1 env st (pget t.payload "repo_url")
              (pgetD t.payload "branch" (Val.str "main")) []).2 = (st1, tr1))
        ∨ (∃ results1 st1 tr1, repoStep1 env st (pget t.payload "repo_url")
            (pgetD t.payload "branch" (Val.str "main")) [] = (Except.ok results1, st1, tr1)
          ∧ ((repoStep2 env st1 results1).1 = Except.error e
            ∨ (∃ results2 st2 tr2, repoStep2 env st1 results1 =
                (Except.ok results2, st2, tr2)
              ∧ ((repoStep3 env st2 results2).1 = Except.error e
                ∨ (∃ results3 st3 tr3, repoStep3 env st2 results2 =
                    (Except.ok results3, st3, tr3)
                  ∧ (repoStep4 env st3 (pget t.payload "repo_url") results3).1 =
                      Except.error e))))))
    ∧ (∀ (n m2 : String) (kw : Payload) (e : Err) (ag : AgentObj),
        dget env.agents n = some ag →
        (execute_agent env st n m2 kw).1 = Except.error e →
        e = Err.circuitOpen n ∨ (∃ mm, e = Err.methodNotFound n mm)
          ∨ ∃ msg, e = Err.agentError msg)
    ∧ (∀ e st2 tr2, repoStep2 env st results = (Except.error e, st2, tr2) →
        ∃ msg, e = Err.pyError msg) := by
  refine ⟨?_, ?_, ?_, ?_, ?_, ?_, ?_, ?_, ?_, ?_, ?_, ?_, ?_⟩
  · intro h
    rw [Option.isNone_iff_eq_none] at h
    simp [repoStep1, h]
  · intro ag hag
    have hsome : (dget env.agents "intake").isSome = true := by
      rw [hag]
      rfl
    constructor
    · intro v st1 tr hx
      unfold repoStep1
      split
      · rw [hx]
      · exact absurd hsome (by assumption)
    · intro e st1 tr hx
      unfold repoStep1
      split
      · rw [hx]
      · exact absurd hsome (by assumption)
  · intro h
    rw [Option.isNone_iff_eq_none] at h
    simp [repoStep2, h]
  · intro h
    simp [repoStep2, h]
  · intro hreg htruthy
    have hcond : ((dget env.agents "parser").isSome
        && (pget results "intake").truthy) = true := by
      rw [hreg, htruthy]
      rfl
    refine ⟨?_, ?_, ?_⟩
    · intro e hg
      unfold repoStep2
      split
      · rw [hg]
      · exact absurd hcond (by assumption)
    · intro vfiles e hg hs
      unfold repoStep2
      split
      · rw [hg]
        simp only []
        rw [hs]
      · exact absurd hcond (by assumption)
    · intro vfiles files hg hs
      unfold repoStep2
      split
      · rw [hg]
        simp only []
        rw [hs]
      · exact absurd hcond (by assumption)
  · intro h
    rw [Option.isNone_iff_eq_none] at h
    simp [repoStep3, h]
  · intro ag hag
    have hsome : (dget env.agents "chunker_indexer").isSome = true := by
      rw [hag]
      rfl
    constructor
    · intro v st1 tr hx
      unfold repoStep3
      split
      · rw [hx]
      · exact absurd hsome (by assumption)
    · intro e st1 tr hx
      unfold repoStep3
      split
      · rw [hx]
      · exact absurd hsome (by assumption)
  · intro h
    rw [Option.isNone_iff_eq_none] at h
    simp [repoStep4, h]
  · intro ag hag
    have hsome : (dget env.agents "summarizer").isSome = true := by
      rw [hag]
      rfl
    constructor
    · intro v st1 tr hx
      unfold repoStep4
      split
      · rw [hx]
      · exact absurd hsome (by assumption)
    · intro e st1 tr hx
      unfold repoStep4
      split
      · rw [hx]
      · exact absurd hsome (by assumption)
  · intro results1 st1 tr1 results2 st2 tr2 results3 st3 tr3 results4 st4 tr4 h1 h2 h3 h4
    unfold handle_repo_ingest
    simp only []
    rw [h1]
    simp only []
    rw [h2]
    simp only []
    rw [h3]
    simp only []
    rw [h4]
  · intro e h
    unfold handle_repo_ingest at h
    simp only [] at h
    rcases h1 : repoStep1 env st (pget t.payload "repo_url")
        (pgetD t.payload "branch" (Val.str "main")) [] with ⟨r1, st1, tr1⟩
    rw [h1] at h
    rcases r1 with e1 | results1
    · simp only [] at h
      exact Or.inl ⟨st1, tr1, by simpa using h, rfl⟩
    · simp only [] at h
      refine Or.inr ⟨results1, st1, tr1, rfl, ?_⟩
      rcases h2 : repoStep2 env st1 results1 with ⟨r2, st2, tr2⟩
      rw [h2] at h
      rcases r2 with e2 | results2
      · simp only [] at h
        exact Or.inl (by simpa using h)
      · simp only [] at h
        refine Or.inr ⟨results2, st2, tr2, rfl, ?_⟩
        rcases h3 : repoStep3 env st2 results2 with ⟨r3, st3, tr3⟩
        rw [h3] at h
        rcases r3 with e3 | results3
        · simp only [] at h
          exact Or.inl (by simpa using h)
        · simp only [] at h
          refine Or.inr ⟨results3, st3, tr3, rfl, ?_⟩
          rcases h4 : repoStep4 env st3 (pget t.payload "repo_url") results3
            with ⟨r4, st4, tr4⟩
          rw [h4] at h
          rcases r4 with e4 | results4
          · simp only [] at h
            simpa using h
          · simp at h
  · intro n m2 kw e ag hag herr
    unfold execute_agent at herr
    rcases hso : stIsOpen st n with ⟨bb, st1⟩
    rw [hso] at herr
    try simp only [] at herr
    rcases bb
    · simp only [Bool.false_eq_true, if_false] at herr
      rw [hag] at herr
      try simp only [] at herr
      rcases hg : ag m2 with _ | meth
      · rw [hg] at herr
        simp only [] at herr
        refine Or.inr (Or.inl ⟨m2, ?_⟩)
        simpa using herr.symm
      · rw [hg] at herr
        try simp only [] at herr
        exact Or.inr (Or.inr (retryLoop_error_kind env n m2 meth kw
          env.settings.retry_max_attempts st1 0 e herr))
    · simp only [if_true] at herr
      refine Or.inl ?_
      simpa using herr.symm
  · intro e st2 tr2 hstep
    unfold repoStep2 at hstep
    split at hstep
    · rcases hg : (pget results "intake").pyGet "files" (Val.listV []) with e1 | vfiles
      · rw [hg] at hstep
        simp only [] at hstep
        have he1 : e1 = e := by
          have := congrArg Prod.fst hstep
          simpa using this
        subst he1
        exact ⟨"AttributeError", pyGet_error _ _ _ _ hg⟩
      · rw [hg] at hstep
        simp only [] at hstep
        rcases hs : vfiles.pySliceTen with e1 | files
        · rw [hs] at hstep
          simp only [] at hstep
          have he1 : e1 = e := by
            have := congrArg Prod.fst hstep
            simpa using this
          subst he1
          exact ⟨"TypeError", pySliceTen_error _ _ hs⟩
        · rw [hs] at hstep
          simp only [] at hstep
          rcases hf : fanOutParse env st files with ⟨rs, stf, trf⟩
          rw [hf] at hstep
          simp at hstep
    · simp at hstep

/-- C9 counterexample, two parts.  (i) With the parser registered but
intake unregistered, the handler performs no agent call at all (empty
trace, no "parser" entry in the results): the parser stage is skipped
even though its own capability IS registered, refuting "skipped exactly
when its own capability is unregistered".  (ii) With intake registered
but its circuit open (open_until 10, clock 3), the handler fails with
the circuit-open error on an empty event trace — the operation was never
invoked, so no retry was consumed, refuting "the handler fails only when
a sequential stage's call exhausts its retries". -/
theorem repo_stage_claims_cex :
    ((dget envParserOnly.agents "parser").isSome = true
    ∧ handle_repo_ingest envParserOnly (stTimes []) (taskOf TaskType.repo_ingest []) =
        (Except.ok (Val.dict
          [("status", Val.str "completed"), ("repo_url", Val.none),
           ("branch", Val.str "main"), ("results", Val.dict [])]),
         stTimes [], []))
    ∧ ((dget envIntakeParser.agents "intake").isSome = true
    ∧ handle_repo_ingest envIntakeParser
        (⟨⟨5, 60, [], [("intake", (10 : ℚ))]⟩, ⟨0, 0, 0, 0⟩, [(3 : ℚ)]⟩ : St)
        (taskOf TaskType.repo_ingest []) =
        (Except.error (Err.circuitOpen "intake"),
         ⟨⟨5, 60, [], [("intake", (10 : ℚ))]⟩, ⟨0, 0, 0, 0⟩, []⟩, [])) := by
  exact ⟨⟨rfl, rfl⟩, ⟨rfl, rfl⟩⟩
